import Mathlib

/-!
Verification of the SmartScheduler prediction-and-response core.

This file gives a shallow embedding of the three programs that implement the
core described in the specification:

* the kernel module (src/kernel/smartscheduler.c): the EMA predictor, the
  signature store and the sampling tick;
* the response daemon (src/user/scheduler_daemon.c): per-process tracking,
  escalation, cooldown, restoration;
* the ranking tool (src/user/top_spikes.c): the score and the top-N view.

C machine integers are modelled as Int (signed int fields) or Nat (unsigned
counters, pids, bitmask flag words).  C integer division truncates toward
zero, which is Int.tdiv.  Pointer-mutating C functions become pure functions
on explicit state records; an array entry updated through a pointer becomes
List.set at the index the lookup returned.  The action sink (setpriority,
ionice, the oom_score_adj write) is modelled by recording the call and taking
the success or failure of each call as a parameter.
-/

/- ===============================================================
   Kernel module model: src/kernel/smartscheduler.c
   =============================================================== -/

namespace SmartSched

/-- EMA smoothing factor, percent (ALPHA in the source). -/
def ALPHA : Int := 30

/-- 100 - ALPHA (ALPHA_COMPLEMENT in the source). -/
def ALPHA_COMPLEMENT : Int := 100 - ALPHA

/-- CPU rate-of-change threshold (CPU_SPIKE_THRESHOLD). -/
def CPU_SPIKE_THRESHOLD : Int := 2000

/-- Memory rate-of-change threshold (MEM_SPIKE_THRESHOLD). -/
def MEM_SPIKE_THRESHOLD : Int := 1500

/-- I/O rate-of-change threshold (IO_SPIKE_THRESHOLD). -/
def IO_SPIKE_THRESHOLD : Int := 1000

/-- Maximum number of tracked processes in the store (MAX_TRACKED_PROCS). -/
def MAX_TRACKED_PROCS : Nat := 4096

/-- Bit 0 of the flag word (FLAG_CPU_SPIKE_PREDICTED). -/
def FLAG_CPU_SPIKE_PREDICTED : Nat := 1

/-- Bit 1 of the flag word (FLAG_MEM_SPIKE_PREDICTED). -/
def FLAG_MEM_SPIKE_PREDICTED : Nat := 2

/-- Bit 2 of the flag word (FLAG_IO_SPIKE_PREDICTED). -/
def FLAG_IO_SPIKE_PREDICTED : Nat := 4

/-- Bit 7 of the flag word (FLAG_ACTIVE). -/
def FLAG_ACTIVE : Nat := 128

/-- The 32-bit complement of the three prediction bits: the C expression
written as a bitwise-not of the or of the three prediction flags on a 32-bit
unsigned int, used by update_signature to clear the old prediction flags. -/
def PREDICTION_CLEAR_MASK : Nat := 4294967288

/-- update_ema from the source: EMA = (ALPHA * sample + ALPHA_COMPLEMENT *
old_ema) / 100 in C int arithmetic; C division truncates toward zero. -/
def update_ema (old_ema sample : Int) : Int :=
  (ALPHA * sample + ALPHA_COMPLEMENT * old_ema).tdiv 100

/-- calc_rate_of_change from the source. -/
def calc_rate_of_change (current_val previous : Int) : Int :=
  current_val - previous

/-- is_spike_predicted from the source: strict greater-than. -/
def is_spike_predicted (roc threshold : Int) : Bool :=
  roc > threshold

/-- The C truthiness test used by readers of the flag word: flags and bit is
nonzero. -/
def flag_test (flags bit : Nat) : Bool :=
  flags &&& bit != 0

/-- struct proc_signature from the source (the hash-table linkage is the list
position in this model). -/
structure ProcSignature where
  pid : Nat
  comm : String
  cpu_ema : Int
  mem_ema : Int
  io_ema : Int
  cpu_prev : Int
  mem_prev : Int
  io_prev : Int
  cpu_roc : Int
  mem_roc : Int
  io_roc : Int
  flags : Nat
  last_update : Nat
  created : Nat
  cpu_spikes_predicted : Nat
  mem_spikes_predicted : Nat
  io_spikes_predicted : Nat
  total_samples : Nat
deriving DecidableEq

/-- The signature created by get_or_create_signature: kzalloc zeroes every
field, then pid, comm, created, last_update and FLAG_ACTIVE are assigned. -/
def blank_signature (pid : Nat) (comm : String) (now : Nat) : ProcSignature :=
  { pid := pid
    comm := comm
    cpu_ema := 0, mem_ema := 0, io_ema := 0
    cpu_prev := 0, mem_prev := 0, io_prev := 0
    cpu_roc := 0, mem_roc := 0, io_roc := 0
    flags := FLAG_ACTIVE
    last_update := now
    created := now
    cpu_spikes_predicted := 0, mem_spikes_predicted := 0
    io_spikes_predicted := 0
    total_samples := 0 }

/-- update_signature from the source: store previous EMAs, recompute EMAs and
rates of change, clear the three prediction flags, set each flag whose new
rate of change strictly exceeds its threshold, bump the per-signature
counters, stamp last_update.  The two global atomic counters live in
ModuleState; predictions_in_update below counts the atomic_inc calls this
update performs. -/
def update_signature (sig : ProcSignature)
    (cpu_sample mem_sample io_sample : Int) (now : Nat) : ProcSignature :=
  let cpu_prev := sig.cpu_ema
  let mem_prev := sig.mem_ema
  let io_prev := sig.io_ema
  let cpu_ema := update_ema sig.cpu_ema cpu_sample
  let mem_ema := update_ema sig.mem_ema mem_sample
  let io_ema := update_ema sig.io_ema io_sample
  let cpu_roc := calc_rate_of_change cpu_ema cpu_prev
  let mem_roc := calc_rate_of_change mem_ema mem_prev
  let io_roc := calc_rate_of_change io_ema io_prev
  let flags0 := sig.flags &&& PREDICTION_CLEAR_MASK
  let flags1 := if is_spike_predicted cpu_roc CPU_SPIKE_THRESHOLD then
      flags0 ||| FLAG_CPU_SPIKE_PREDICTED else flags0
  let flags2 := if is_spike_predicted mem_roc MEM_SPIKE_THRESHOLD then
      flags1 ||| FLAG_MEM_SPIKE_PREDICTED else flags1
  let flags3 := if is_spike_predicted io_roc IO_SPIKE_THRESHOLD then
      flags2 ||| FLAG_IO_SPIKE_PREDICTED else flags2
  { sig with
    cpu_prev := cpu_prev, mem_prev := mem_prev, io_prev := io_prev
    cpu_ema := cpu_ema, mem_ema := mem_ema, io_ema := io_ema
    cpu_roc := cpu_roc, mem_roc := mem_roc, io_roc := io_roc
    flags := flags3
    cpu_spikes_predicted := sig.cpu_spikes_predicted +
      (if is_spike_predicted cpu_roc CPU_SPIKE_THRESHOLD then 1 else 0)
    mem_spikes_predicted := sig.mem_spikes_predicted +
      (if is_spike_predicted mem_roc MEM_SPIKE_THRESHOLD then 1 else 0)
    io_spikes_predicted := sig.io_spikes_predicted +
      (if is_spike_predicted io_roc IO_SPIKE_THRESHOLD then 1 else 0)
    total_samples := sig.total_samples + 1
    last_update := now }

/-- The number of atomic_inc calls on total_predictions that
update_signature performs for this sample. -/
def predictions_in_update (sig : ProcSignature)
    (cpu_sample mem_sample io_sample : Int) (now : Nat) : Nat :=
  let sig2 := update_signature sig cpu_sample mem_sample io_sample now
  (if is_spike_predicted sig2.cpu_roc CPU_SPIKE_THRESHOLD then 1 else 0) +
  (if is_spike_predicted sig2.mem_roc MEM_SPIKE_THRESHOLD then 1 else 0) +
  (if is_spike_predicted sig2.io_roc IO_SPIKE_THRESHOLD then 1 else 0)

/-- The kernel-module global state: the signature store (hash table, modelled
as a list in insertion order) and the two module statistics counters. -/
structure ModuleState where
  sigs : List ProcSignature
  total_tracked : Nat
  total_predictions : Nat
deriving DecidableEq

/-- The module state right after init: empty table, zero counters. -/
def init_module_state : ModuleState :=
  { sigs := [], total_tracked := 0, total_predictions := 0 }

/-- get_or_create_signature from the source: search the table for the pid and
return the existing entry; otherwise refuse if total_tracked has reached
MAX_TRACKED_PROCS, else insert a fresh zeroed signature and bump
total_tracked.  The returned Option Nat is the C pointer, rendered as the
index of the entry in the store; the NULL return is none.  The kzalloc
failure path is not modelled (allocation is assumed to succeed). -/
def get_or_create_signature (st : ModuleState) (pid : Nat) (comm : String)
    (now : Nat) : Option Nat × ModuleState :=
  match st.sigs.findIdx? (fun s => s.pid == pid) with
  | some i => (some i, st)
  | none =>
    if st.total_tracked ≥ MAX_TRACKED_PROCS then
      (none, st)
    else
      (some st.sigs.length,
       { st with sigs := st.sigs ++ [blank_signature pid comm now],
                 total_tracked := st.total_tracked + 1 })

/-- remove_signature from the source: delete the entry and decrement
total_tracked.  This function is defined by the module but never called from
the sampling path (its only analogue is the free-everything loop in module
exit). -/
def remove_signature (st : ModuleState) (i : Nat) : ModuleState :=
  { st with sigs := st.sigs.eraseIdx i,
            total_tracked := st.total_tracked - 1 }

/-- One task from the samples provider: the per-tick reading for one live
process (kernel threads and zombies are already filtered out by the
callback). -/
structure SampleTask where
  pid : Nat
  comm : String
  cpu : Int
  mem : Int
  io_sample : Int
deriving DecidableEq

/-- The body of the for_each_process loop in sample_timer_callback: get or
create the signature for the task and, if that produced an entry, update it
in place. -/
def sample_tick_step (now : Nat) (st : ModuleState) (t : SampleTask) :
    ModuleState :=
  match get_or_create_signature st t.pid t.comm now with
  | (some i, st1) =>
    match st1.sigs[i]? with
    | some sig =>
      { st1 with
        sigs := st1.sigs.set i (update_signature sig t.cpu t.mem t.io_sample now),
        total_predictions := st1.total_predictions +
          predictions_in_update sig t.cpu t.mem t.io_sample now }
    | none => st1
  | (none, st1) => st1

/-- sample_timer_callback from the source: one sampling tick over the
snapshot delivered by the provider.  The callback only creates and updates
signatures; it contains no removal of entries absent from the snapshot. -/
def sample_timer_callback (st : ModuleState) (snapshot : List SampleTask)
    (now : Nat) : ModuleState :=
  snapshot.foldl (sample_tick_step now) st

/-- The pids currently present in the store. -/
def store_pids (st : ModuleState) : List Nat :=
  st.sigs.map (fun s => s.pid)

end SmartSched

/- ===============================================================
   Response daemon model: src/user/scheduler_daemon.c
   =============================================================== -/

namespace Daemon

/-- MAX_TRACKED from the daemon source: capacity of the tracking table. -/
def MAX_TRACKED : Nat := 1024

/-- Bit 0 of spike_type (SPIKE_CPU). -/
def SPIKE_CPU_MASK : Nat := 1

/-- Bit 1 of spike_type (SPIKE_MEM). -/
def SPIKE_MEM_MASK : Nat := 2

/-- Bit 2 of spike_type (the I/O spike bit of the source). -/
def SPIKE_IO_MASK : Nat := 4

/-- EscalationLevel from the source, in enum order NONE = 0 through
CRITICAL = 4. -/
inductive EscalationLevel where
  | none
  | advisory
  | soft
  | hard
  | critical
deriving DecidableEq

/-- The integer value of the enum constant, as C compares them. -/
def EscalationLevel.toNat : EscalationLevel → Nat
  | .none => 0
  | .advisory => 1
  | .soft => 2
  | .hard => 3
  | .critical => 4

/-- The C comparison a >= b on escalation levels. -/
def level_ge (a b : EscalationLevel) : Bool :=
  b.toNat ≤ a.toNat

/-- TrackedProcess from the daemon source.  The C int adjusted is used only
as a truth value, so it is a Bool here; times are time_t, modelled as Int. -/
structure TrackedProcess where
  pid : Nat
  comm : String
  original_nice : Int
  current_nice : Int
  adjusted : Bool
  adjusted_time : Int
  last_seen : Int
  spike_type : Nat
  spike_samples : Nat
  escalation : EscalationLevel
  action_count : Nat
deriving DecidableEq

/-- The entry add_tracked builds: memset to zero, then pid, comm and
last_seen are assigned (ESCALATION_NONE is the zero enum value). -/
def blank_tracked (pid : Nat) (comm : String) (now : Int) : TrackedProcess :=
  { pid := pid
    comm := comm
    original_nice := 0
    current_nice := 0
    adjusted := false
    adjusted_time := 0
    last_seen := now
    spike_type := 0
    spike_samples := 0
    escalation := .none
    action_count := 0 }

/-- The global stats struct of the daemon. -/
structure Stats where
  cpu_advisories : Nat
  mem_advisories : Nat
  io_advisories : Nat
  cpu_boosts : Nat
  mem_actions : Nat
  io_boosts : Nat
  restorations : Nat
  escalations : Nat
  persistent_spikes : Nat
deriving DecidableEq

/-- The zero-initialised stats struct. -/
def zero_stats : Stats :=
  { cpu_advisories := 0, mem_advisories := 0, io_advisories := 0
    cpu_boosts := 0, mem_actions := 0, io_boosts := 0
    restorations := 0, escalations := 0, persistent_spikes := 0 }

/-- One action-sink invocation made by the daemon: a setpriority call, an
ionice call, or the oom_score_adj write. -/
inductive SinkCall where
  | setNice (pid : Nat) (nice_val : Int)
  | setIoPriority (pid : Nat) (cls lvl : Int)
  | oomScoreAdjust (pid : Nat)
deriving DecidableEq

/-- A log_action record: category, action and pid (the printf-formatted
details text is elided). -/
structure LogEntry where
  category : String
  action : String
  pid : Nat
deriving DecidableEq

/-- The daemon global state: the tracking table (tracked_count is the list
length), the stats struct, the action log, and the trace of action-sink
calls made so far. -/
structure DaemonState where
  tracked : List TrackedProcess
  stats : Stats
  log : List LogEntry
  sinkCalls : List SinkCall
deriving DecidableEq

/-- The daemon state at startup. -/
def init_daemon_state : DaemonState :=
  { tracked := [], stats := zero_stats, log := [], sinkCalls := [] }

/-- find_tracked from the source: index of the first table entry with this
pid (the C pointer, rendered as an index). -/
def find_tracked (s : DaemonState) (pid : Nat) : Option Nat :=
  s.tracked.findIdx? (fun p => p.pid == pid)

/-- add_tracked from the source: refuse when the table is full, otherwise
append a zeroed entry stamped with pid, comm and last_seen and return its
index. -/
def add_tracked (s : DaemonState) (pid : Nat) (comm : String) (now : Int) :
    Option Nat × DaemonState :=
  if s.tracked.length ≥ MAX_TRACKED then
    (Option.none, s)
  else
    (some s.tracked.length,
     { s with tracked := s.tracked ++ [blank_tracked pid comm now] })

/-- get_escalation_level from the source: thresholds on spike_samples.  Note
that it returns ADVISORY for spike_samples = 0; ESCALATION_NONE is never a
value of this function. -/
def get_escalation_level (p : TrackedProcess) : EscalationLevel :=
  if p.spike_samples ≤ 2 then .advisory
  else if p.spike_samples ≤ 5 then .soft
  else if p.spike_samples ≤ 10 then .hard
  else .critical

/-- The CPU cooldown, spike_configs[0].cooldown_secs. -/
def CPU_COOLDOWN_SECS : Int := 10

/-- The MEM cooldown field, spike_configs[1].cooldown_secs.  The field is
defined in the configuration table but the memory handler never reads it. -/
def MEM_COOLDOWN_SECS : Int := 15

/-- The I/O cooldown, spike_configs[2].cooldown_secs. -/
def IO_COOLDOWN_SECS : Int := 10

/-- The common prologue of the three spike handlers applied to the found or
created entry: or the category bit into spike_type, increment spike_samples
and stamp last_seen. -/
def spike_prologue (p : TrackedProcess) (mask : Nat) (now : Int) :
    TrackedProcess :=
  { p with spike_type := p.spike_type ||| mask,
           spike_samples := p.spike_samples + 1,
           last_seen := now }

/-- The body of handle_cpu_spike once a table entry exists at index i.
origNice plays the role of the get_nice call at creation (already applied by
the caller); ok is the success of the setpriority call, when one is made. -/
def handle_cpu_spike_body (s : DaemonState) (i : Nat) (pid : Nat)
    (now : Int) (ok : Bool) : DaemonState :=
  match s.tracked[i]? with
  | Option.none => s
  | some p0 =>
    let p1 := spike_prologue p0 SPIKE_CPU_MASK now
    let s1 := { s with tracked := s.tracked.set i p1 }
    let level := get_escalation_level p1
    if level = .advisory then
      { s1 with log := s1.log ++ [⟨"CPU", "ADVISORY", pid⟩],
                stats := { s1.stats with
                  cpu_advisories := s1.stats.cpu_advisories + 1 } }
    else if p1.adjusted ∧ now - p1.adjusted_time < CPU_COOLDOWN_SECS then
      s1
    else
      let nice_boost : Int :=
        if level_ge level .critical then -15
        else if level_ge level .hard then -10
        else -5
      let s2 := { s1 with sinkCalls := s1.sinkCalls ++ [.setNice pid nice_boost] }
      if ok then
        let p2 := { p1 with current_nice := nice_boost,
                            adjusted := true,
                            adjusted_time := now,
                            escalation := level,
                            action_count := p1.action_count + 1 }
        { s2 with
          tracked := s2.tracked.set i p2,
          stats := { s2.stats with
            cpu_boosts := s2.stats.cpu_boosts + 1,
            escalations := s2.stats.escalations +
              (if level_ge level .hard then 1 else 0) },
          log := s2.log ++ [⟨"CPU", "BOOST", pid⟩] }
      else s2

/-- handle_cpu_spike from the source: find or lazily create the entry (on
creation original_nice is set from get_nice, passed here as origNice); when
the table is full the spike is dropped silently.  The roc argument of the C
function only feeds the log text and is elided. -/
def handle_cpu_spike (s : DaemonState) (pid : Nat) (comm : String)
    (now : Int) (origNice : Int) (ok : Bool) : DaemonState :=
  match find_tracked s pid with
  | some i => handle_cpu_spike_body s i pid now ok
  | Option.none =>
    match add_tracked s pid comm now with
    | (some i, s1) =>
      let created := s1.tracked[i]?.getD (blank_tracked pid comm now)
      let s2 := { s1 with
        tracked := s1.tracked.set i { created with original_nice := origNice } }
      handle_cpu_spike_body s2 i pid now ok
    | (Option.none, s1) => s1

/-- The body of handle_mem_spike once a table entry exists at index i.  The
memory handler has no cooldown check; at HARD it only logs and counts, and
at CRITICAL it additionally writes oom_score_adj (a sink call whose result
the C code discards, so no ok parameter). -/
def handle_mem_spike_body (s : DaemonState) (i : Nat) (pid : Nat)
    (now : Int) : DaemonState :=
  match s.tracked[i]? with
  | Option.none => s
  | some p0 =>
    let p1 := spike_prologue p0 SPIKE_MEM_MASK now
    let s1 := { s with tracked := s.tracked.set i p1 }
    let level := get_escalation_level p1
    if level = .advisory then
      { s1 with log := s1.log ++ [⟨"MEM", "ADVISORY", pid⟩],
                stats := { s1.stats with
                  mem_advisories := s1.stats.mem_advisories + 1 } }
    else if level = .soft then
      { s1 with log := s1.log ++ [⟨"MEM", "WARNING", pid⟩],
                stats := { s1.stats with
                  mem_advisories := s1.stats.mem_advisories + 1 } }
    else if level_ge level .hard then
      let s2 := { s1 with
        log := s1.log ++ [⟨"MEM", "ALERT", pid⟩],
        stats := { s1.stats with
          mem_actions := s1.stats.mem_actions + 1,
          persistent_spikes := s1.stats.persistent_spikes + 1 } }
      if level_ge level .critical then
        { s2 with sinkCalls := s2.sinkCalls ++ [.oomScoreAdjust pid],
                  log := s2.log ++ [⟨"MEM", "OOM_SCORE", pid⟩] }
      else s2
    else s1

/-- handle_mem_spike from the source.  Creation does not record
original_nice (only the CPU handler calls get_nice). -/
def handle_mem_spike (s : DaemonState) (pid : Nat) (comm : String)
    (now : Int) : DaemonState :=
  match find_tracked s pid with
  | some i => handle_mem_spike_body s i pid now
  | Option.none =>
    match add_tracked s pid comm now with
    | (some i, s1) => handle_mem_spike_body s1 i pid now
    | (Option.none, s1) => s1

/-- The body of handle_io_spike once a table entry exists at index i; ok is
the success of the ionice call, when one is made.  On success the handler
sets adjusted and adjusted_time but, unlike the CPU handler, never writes
the escalation field. -/
def handle_io_spike_body (s : DaemonState) (i : Nat) (pid : Nat)
    (now : Int) (ok : Bool) : DaemonState :=
  match s.tracked[i]? with
  | Option.none => s
  | some p0 =>
    let p1 := spike_prologue p0 SPIKE_IO_MASK now
    let s1 := { s with tracked := s.tracked.set i p1 }
    let level := get_escalation_level p1
    if level = .advisory then
      { s1 with log := s1.log ++ [⟨"I/O", "ADVISORY", pid⟩],
                stats := { s1.stats with
                  io_advisories := s1.stats.io_advisories + 1 } }
    else if p1.adjusted ∧ now - p1.adjusted_time < IO_COOLDOWN_SECS then
      s1
    else
      let cls : Int := if level_ge level .hard then 1 else 2
      let lvl : Int := if level_ge level .hard then 4 else 0
      let s2 := { s1 with sinkCalls := s1.sinkCalls ++ [.setIoPriority pid cls lvl] }
      if ok then
        let p2 := { p1 with adjusted := true,
                            adjusted_time := now,
                            action_count := p1.action_count + 1 }
        { s2 with
          tracked := s2.tracked.set i p2,
          stats := { s2.stats with io_boosts := s2.stats.io_boosts + 1 },
          log := s2.log ++ [⟨"I/O", "BOOST", pid⟩] }
      else s2

/-- handle_io_spike from the source. -/
def handle_io_spike (s : DaemonState) (pid : Nat) (comm : String)
    (now : Int) (ok : Bool) : DaemonState :=
  match find_tracked s pid with
  | some i => handle_io_spike_body s i pid now ok
  | Option.none =>
    match add_tracked s pid comm now with
    | (some i, s1) => handle_io_spike_body s1 i pid now ok
    | (Option.none, s1) => s1

/-- The per-entry step of restore_priorities: when the entry was adjusted
and has not been seen spiking for strictly more than 5 seconds, call
setpriority back to original_nice; on success clear adjusted, restore
current_nice, zero spike_samples and set escalation to NONE.  Returns the
resulting entry, the number of restorations counted, the log records and
the sink calls made. -/
def restore_step (now : Int) (ok : Bool) (p : TrackedProcess) :
    TrackedProcess × Nat × List LogEntry × List SinkCall :=
  if p.adjusted ∧ now - p.last_seen > 5 then
    if ok then
      ({ p with adjusted := false,
                current_nice := p.original_nice,
                spike_samples := 0,
                escalation := .none },
       1, [⟨"RESTORE", "PRIORITY", p.pid⟩], [.setNice p.pid p.original_nice])
    else (p, 0, [], [.setNice p.pid p.original_nice])
  else (p, 0, [], [])

/-- restore_priorities from the source: one pass over the whole table; the
function ok gives the success of the setpriority call for each index.  There
is no cooldown test anywhere in this pass. -/
def restore_priorities (s : DaemonState) (now : Int) (ok : Nat → Bool) :
    DaemonState :=
  let results := s.tracked.enum.map (fun x => restore_step now (ok x.1) x.2)
  { s with
    tracked := results.map (fun r => r.1),
    stats := { s.stats with restorations := s.stats.restorations +
      (results.map (fun r => r.2.1)).sum },
    log := s.log ++ (results.map (fun r => r.2.2.1)).flatten,
    sinkCalls := s.sinkCalls ++ (results.map (fun r => r.2.2.2)).flatten }

/-- The daemon states reachable from startup by any interleaving of spike
handler invocations and restoration passes (a superset of the traces the
main loop produces, which is what the safety arguments need). -/
inductive Reachable : DaemonState → Prop where
  | init : Reachable init_daemon_state
  | cpu (s : DaemonState) (pid : Nat) (comm : String) (now origNice : Int)
      (ok : Bool) : Reachable s → Reachable (handle_cpu_spike s pid comm now origNice ok)
  | mem (s : DaemonState) (pid : Nat) (comm : String) (now : Int) :
      Reachable s → Reachable (handle_mem_spike s pid comm now)
  | io (s : DaemonState) (pid : Nat) (comm : String) (now : Int) (ok : Bool) :
      Reachable s → Reachable (handle_io_spike s pid comm now ok)
  | restore (s : DaemonState) (now : Int) (ok : Nat → Bool) :
      Reachable s → Reachable (restore_priorities s now ok)

end Daemon

/- ===============================================================
   Ranking tool model: src/user/top_spikes.c
   =============================================================== -/

namespace TopSpikes

/-- MAX_PROCS from the tool source: capacity of its local array. -/
def MAX_PROCS : Nat := 512

/-- One row of /proc/smartscheduler/stats as the tool parses it. -/
structure StatRow where
  pid : Nat
  cpu_ema : Int
  mem_ema : Int
  io_ema : Int
  cpu_roc : Int
  mem_roc : Int
  io_roc : Int
deriving DecidableEq

/-- The Process record of the tool. -/
structure Process where
  pid : Nat
  cpu_ema : Int
  mem_ema : Int
  io_ema : Int
  cpu_roc : Int
  mem_roc : Int
  io_roc : Int
  score : Int
deriving DecidableEq

/-- The overall score computed in read_stats: abs of each rate of change,
summed. -/
def compute_score (cpu_roc mem_roc io_roc : Int) : Int :=
  |cpu_roc| + |mem_roc| + |io_roc|

/-- read_stats from the tool source: each parsed row becomes a Process with
its score; the loop stops once the local array of MAX_PROCS entries is
full. -/
def read_stats (rows : List StatRow) : List Process :=
  (rows.take MAX_PROCS).map (fun r =>
    { pid := r.pid
      cpu_ema := r.cpu_ema, mem_ema := r.mem_ema, io_ema := r.io_ema
      cpu_roc := r.cpu_roc, mem_roc := r.mem_roc, io_roc := r.io_roc
      score := compute_score r.cpu_roc r.mem_roc r.io_roc })

/-- The order the qsort comparator compare_by_score induces: descending
score. -/
def score_desc (a b : Process) : Prop :=
  b.score ≤ a.score

instance score_desc_decidable : DecidableRel score_desc :=
  fun a b => inferInstanceAs (Decidable (b.score ≤ a.score))

instance score_desc_total : IsTotal Process score_desc :=
  ⟨fun a b => le_total b.score a.score⟩

instance score_desc_trans : IsTrans Process score_desc :=
  ⟨fun _ _ _ hab hbc => le_trans hbc hab⟩

/-- The qsort call of main in the default sort mode.  The C standard leaves
the relative order of tied elements of qsort unspecified; insertion sort
under the comparator order is one compliant executable refinement of the
call. -/
def sort_by_score (l : List Process) : List Process :=
  List.insertionSort score_desc l

/-- The clamping of the -n option value in main: below 1 becomes 1, above
100 becomes 100. -/
def clamp_top_n (n : Int) : Int :=
  if n < 1 then 1 else if n > 100 then 100 else n

/-- The rows print_results shows: the first top_n entries of the sorted
array, stopping early at proc_count. -/
def top_n_rows (l : List Process) (top_n : Nat) : List Process :=
  (sort_by_score l).take top_n

/-- The whole tool in the default sort mode, from parsed rows and the raw
-n option value to the rows displayed. -/
def top_spikes_main (rows : List StatRow) (n : Int) : List Process :=
  top_n_rows (read_stats rows) (clamp_top_n n).toNat

end TopSpikes

/- ===============================================================
   Iterated EMA (for the convergence property)
   =============================================================== -/

namespace SmartSched

/-- The EMA value after n ticks of the identical raw sample, starting from
e0: the sequence update_signature produces in any one resource column when
the provider repeats the same reading. -/
def ema_iter (sample e0 : Int) : Nat → Int
  | 0 => e0
  | n + 1 => update_ema (ema_iter sample e0 n) sample

end SmartSched

/- ===============================================================
   Scenario definitions used by the claims
   =============================================================== -/

namespace SmartSched

/-- The capacity scenario of the specification: feed a list of pids to
get_or_create_signature in order (first sample of each), starting from a
fresh module; returns the final state and the number of NULL returns
(capacity failures). -/
def insert_all (pids : List Nat) : ModuleState × Nat :=
  pids.foldl
    (fun acc pid =>
      match get_or_create_signature acc.1 pid "task" 0 with
      | (some _, st) => (st, acc.2)
      | (Option.none, st) => (st, acc.2 + 1))
    (init_module_state, 0)

/-- A store holding MAX_TRACKED_PROCS signatures, pids 0 through 4095. -/
def full_store : ModuleState :=
  { sigs := (List.range MAX_TRACKED_PROCS).map (fun i => blank_signature i "task" 0),
    total_tracked := MAX_TRACKED_PROCS,
    total_predictions := 0 }

/-- A store holding the single pid 1, as left by a first sampling tick. -/
def one_pid_store : ModuleState :=
  { sigs := [blank_signature 1 "task" 0],
    total_tracked := 1,
    total_predictions := 0 }

end SmartSched

namespace Daemon

/-- The safety invariant of the tracking table: any entry whose stored
escalation level is not NONE has been adjusted (only the CPU success branch
writes the escalation field, and it sets adjusted in the same breath). -/
def InvEscAdjusted (s : DaemonState) : Prop :=
  ∀ p ∈ s.tracked, p.escalation ≠ EscalationLevel.none → p.adjusted = true

/-- Three CPU-spike ticks for pid 7 at seconds 0, 1, 2 with a successful
action sink: the third tick reaches SOFT and boosts the priority. -/
def demo_state_cpu3 : DaemonState :=
  handle_cpu_spike
    (handle_cpu_spike
      (handle_cpu_spike init_daemon_state 7 "x" 0 0 true) 7 "x" 1 0 true)
    7 "x" 2 0 true

/-- The tracking entry demo_state_cpu3 holds for pid 7. -/
def entry_cpu3 : TrackedProcess :=
  { pid := 7, comm := "x", original_nice := 0, current_nice := -5,
    adjusted := true, adjusted_time := 2, last_seen := 2,
    spike_type := SPIKE_CPU_MASK, spike_samples := 3,
    escalation := EscalationLevel.soft, action_count := 1 }

/-- n memory-spike ticks for pid 9, one second apart, starting from the
fresh daemon. -/
def mem_spike_iter : Nat → DaemonState
  | 0 => init_daemon_state
  | n + 1 => handle_mem_spike (mem_spike_iter n) 9 "memhog" (n : Int)

/-- A daemon whose tracking table is full: MAX_TRACKED entries, pids 0
through 1023. -/
def full_table : DaemonState :=
  { tracked := (List.range MAX_TRACKED).map (fun i => blank_tracked i "task" 0),
    stats := zero_stats, log := [], sinkCalls := [] }

end Daemon

namespace TopSpikes

/-- The four-signature example of the specification, with total scores 10,
9000, 50 and 200 in insertion order. -/
def example_rows : List StatRow :=
  [⟨1, 0, 0, 0, 10, 0, 0⟩,
   ⟨2, 0, 0, 0, 9000, 0, 0⟩,
   ⟨3, 0, 0, 0, 50, 0, 0⟩,
   ⟨4, 0, 0, 0, 200, 0, 0⟩]

end TopSpikes

/- ===============================================================
   Helper lemmas
   =============================================================== -/

namespace SmartSched

theorem flag_test_pow (f k : Nat) : flag_test f (2 ^ k) = f.testBit k := by
  unfold flag_test
  rw [Nat.and_two_pow]
  cases h : f.testBit k <;> simp

theorem flag_test_bit0 (f : Nat) : flag_test f FLAG_CPU_SPIKE_PREDICTED = f.testBit 0 := by
  simpa using flag_test_pow f 0

theorem flag_test_bit1 (f : Nat) : flag_test f FLAG_MEM_SPIKE_PREDICTED = f.testBit 1 := by
  simpa using flag_test_pow f 1

theorem flag_test_bit2 (f : Nat) : flag_test f FLAG_IO_SPIKE_PREDICTED = f.testBit 2 := by
  simpa using flag_test_pow f 2

/-- The prediction bits of the flag word after the clear-then-set sequence of
update_signature are exactly the three conditions, independently of the
incoming flag word. -/
theorem flags_chain_spec (f : Nat) (b1 b2 b3 : Bool) :
    flag_test
      (if b3 then
        (if b2 then
          (if b1 then (f &&& PREDICTION_CLEAR_MASK) ||| FLAG_CPU_SPIKE_PREDICTED
           else f &&& PREDICTION_CLEAR_MASK) ||| FLAG_MEM_SPIKE_PREDICTED
         else
          (if b1 then (f &&& PREDICTION_CLEAR_MASK) ||| FLAG_CPU_SPIKE_PREDICTED
           else f &&& PREDICTION_CLEAR_MASK)) ||| FLAG_IO_SPIKE_PREDICTED
       else
        (if b2 then
          (if b1 then (f &&& PREDICTION_CLEAR_MASK) ||| FLAG_CPU_SPIKE_PREDICTED
           else f &&& PREDICTION_CLEAR_MASK) ||| FLAG_MEM_SPIKE_PREDICTED
         else
          (if b1 then (f &&& PREDICTION_CLEAR_MASK) ||| FLAG_CPU_SPIKE_PREDICTED
           else f &&& PREDICTION_CLEAR_MASK)))
      FLAG_CPU_SPIKE_PREDICTED = b1 ∧
    flag_test
      (if b3 then
        (if b2 then
          (if b1 then (f &&& PREDICTION_CLEAR_MASK) ||| FLAG_CPU_SPIKE_PREDICTED
           else f &&& PREDICTION_CLEAR_MASK) ||| FLAG_MEM_SPIKE_PREDICTED
         else
          (if b1 then (f &&& PREDICTION_CLEAR_MASK) ||| FLAG_CPU_SPIKE_PREDICTED
           else f &&& PREDICTION_CLEAR_MASK)) ||| FLAG_IO_SPIKE_PREDICTED
       else
        (if b2 then
          (if b1 then (f &&& PREDICTION_CLEAR_MASK) ||| FLAG_CPU_SPIKE_PREDICTED
           else f &&& PREDICTION_CLEAR_MASK) ||| FLAG_MEM_SPIKE_PREDICTED
         else
          (if b1 then (f &&& PREDICTION_CLEAR_MASK) ||| FLAG_CPU_SPIKE_PREDICTED
           else f &&& PREDICTION_CLEAR_MASK)))
      FLAG_MEM_SPIKE_PREDICTED = b2 ∧
    flag_test
      (if b3 then
        (if b2 then
          (if b1 then (f &&& PREDICTION_CLEAR_MASK) ||| FLAG_CPU_SPIKE_PREDICTED
           else f &&& PREDICTION_CLEAR_MASK) ||| FLAG_MEM_SPIKE_PREDICTED
         else
          (if b1 then (f &&& PREDICTION_CLEAR_MASK) ||| FLAG_CPU_SPIKE_PREDICTED
           else f &&& PREDICTION_CLEAR_MASK)) ||| FLAG_IO_SPIKE_PREDICTED
       else
        (if b2 then
          (if b1 then (f &&& PREDICTION_CLEAR_MASK) ||| FLAG_CPU_SPIKE_PREDICTED
           else f &&& PREDICTION_CLEAR_MASK) ||| FLAG_MEM_SPIKE_PREDICTED
         else
          (if b1 then (f &&& PREDICTION_CLEAR_MASK) ||| FLAG_CPU_SPIKE_PREDICTED
           else f &&& PREDICTION_CLEAR_MASK)))
      FLAG_IO_SPIKE_PREDICTED = b3 := by
  have hm0 : PREDICTION_CLEAR_MASK.testBit 0 = false := by decide
  have hm1 : PREDICTION_CLEAR_MASK.testBit 1 = false := by decide
  have hm2 : PREDICTION_CLEAR_MASK.testBit 2 = false := by decide
  have hc0 : Nat.testBit FLAG_CPU_SPIKE_PREDICTED 0 = true := by decide
  have hc1 : Nat.testBit FLAG_CPU_SPIKE_PREDICTED 1 = false := by decide
  have hc2 : Nat.testBit FLAG_CPU_SPIKE_PREDICTED 2 = false := by decide
  have hmm0 : Nat.testBit FLAG_MEM_SPIKE_PREDICTED 0 = false := by decide
  have hmm1 : Nat.testBit FLAG_MEM_SPIKE_PREDICTED 1 = true := by decide
  have hmm2 : Nat.testBit FLAG_MEM_SPIKE_PREDICTED 2 = false := by decide
  have hi0 : Nat.testBit FLAG_IO_SPIKE_PREDICTED 0 = false := by decide
  have hi1 : Nat.testBit FLAG_IO_SPIKE_PREDICTED 1 = false := by decide
  have hi2 : Nat.testBit FLAG_IO_SPIKE_PREDICTED 2 = true := by decide
  have hm0m : PREDICTION_CLEAR_MASK % 2 = 0 := by decide
  have hc0m : FLAG_CPU_SPIKE_PREDICTED % 2 = 1 := by decide
  have hmm0m : FLAG_MEM_SPIKE_PREDICTED % 2 = 0 := by decide
  have hi0m : FLAG_IO_SPIKE_PREDICTED % 2 = 0 := by decide
  cases b1 <;> cases b2 <;> cases b3 <;>
    simp [flag_test_bit0, flag_test_bit1, flag_test_bit2, Nat.testBit_or,
      Nat.testBit_and, hm0, hm1, hm2, hc0, hc1, hc2, hmm0, hmm1, hmm2,
      hi0, hi1, hi2, hm0m, hc0m, hmm0m, hi0m]

end SmartSched

/- ===============================================================
   Claim C3
   =============================================================== -/

namespace SmartSched

/-- C3: after every per-tick update of a signature, each of the three spike
flags (CPU, MEM, IO) is set if and only if that resource rate of change for
the current tick is strictly greater than its threshold (2000 for CPU, 1500
for MEM, 1000 for IO); a rate of change equal to the threshold does not set
the flag, threshold plus one does, and a flag set on a previous tick is
cleared when the current rate of change no longer exceeds the threshold. -/
theorem claim_C3_spike_flags (sig : ProcSignature) (c m i : Int) (now : Nat) :
    (flag_test (update_signature sig c m i now).flags FLAG_CPU_SPIKE_PREDICTED = true ↔
      CPU_SPIKE_THRESHOLD < (update_signature sig c m i now).cpu_roc) ∧
    (flag_test (update_signature sig c m i now).flags FLAG_MEM_SPIKE_PREDICTED = true ↔
      MEM_SPIKE_THRESHOLD < (update_signature sig c m i now).mem_roc) ∧
    (flag_test (update_signature sig c m i now).flags FLAG_IO_SPIKE_PREDICTED = true ↔
      IO_SPIKE_THRESHOLD < (update_signature sig c m i now).io_roc) ∧
    ((update_signature (blank_signature 1 "b" 0) 6667 0 0 0).cpu_roc = CPU_SPIKE_THRESHOLD ∧
      flag_test (update_signature (blank_signature 1 "b" 0) 6667 0 0 0).flags
        FLAG_CPU_SPIKE_PREDICTED = false) ∧
    ((update_signature (blank_signature 1 "b" 0) 6670 0 0 0).cpu_roc = CPU_SPIKE_THRESHOLD + 1 ∧
      flag_test (update_signature (blank_signature 1 "b" 0) 6670 0 0 0).flags
        FLAG_CPU_SPIKE_PREDICTED = true) ∧
    ((update_signature (blank_signature 1 "b" 0) 0 5000 0 0).mem_roc = MEM_SPIKE_THRESHOLD ∧
      flag_test (update_signature (blank_signature 1 "b" 0) 0 5000 0 0).flags
        FLAG_MEM_SPIKE_PREDICTED = false) ∧
    ((update_signature (blank_signature 1 "b" 0) 0 5004 0 0).mem_roc = MEM_SPIKE_THRESHOLD + 1 ∧
      flag_test (update_signature (blank_signature 1 "b" 0) 0 5004 0 0).flags
        FLAG_MEM_SPIKE_PREDICTED = true) ∧
    ((update_signature (blank_signature 1 "b" 0) 0 0 3334 0).io_roc = IO_SPIKE_THRESHOLD ∧
      flag_test (update_signature (blank_signature 1 "b" 0) 0 0 3334 0).flags
        FLAG_IO_SPIKE_PREDICTED = false) ∧
    ((update_signature (blank_signature 1 "b" 0) 0 0 3337 0).io_roc = IO_SPIKE_THRESHOLD + 1 ∧
      flag_test (update_signature (blank_signature 1 "b" 0) 0 0 3337 0).flags
        FLAG_IO_SPIKE_PREDICTED = true) ∧
    (flag_test { blank_signature 1 "b" 0 with flags := FLAG_ACTIVE ||| 7 }.flags
        FLAG_CPU_SPIKE_PREDICTED = true ∧
      flag_test
        (update_signature { blank_signature 1 "b" 0 with flags := FLAG_ACTIVE ||| 7 } 0 0 0 1).flags
        FLAG_CPU_SPIKE_PREDICTED = false ∧
      flag_test
        (update_signature { blank_signature 1 "b" 0 with flags := FLAG_ACTIVE ||| 7 } 0 0 0 1).flags
        FLAG_MEM_SPIKE_PREDICTED = false ∧
      flag_test
        (update_signature { blank_signature 1 "b" 0 with flags := FLAG_ACTIVE ||| 7 } 0 0 0 1).flags
        FLAG_IO_SPIKE_PREDICTED = false) := by
  have h := flags_chain_spec sig.flags
    (is_spike_predicted (update_signature sig c m i now).cpu_roc CPU_SPIKE_THRESHOLD)
    (is_spike_predicted (update_signature sig c m i now).mem_roc MEM_SPIKE_THRESHOLD)
    (is_spike_predicted (update_signature sig c m i now).io_roc IO_SPIKE_THRESHOLD)
  have h1 : flag_test (update_signature sig c m i now).flags FLAG_CPU_SPIKE_PREDICTED =
      is_spike_predicted (update_signature sig c m i now).cpu_roc CPU_SPIKE_THRESHOLD := h.1
  have h2 : flag_test (update_signature sig c m i now).flags FLAG_MEM_SPIKE_PREDICTED =
      is_spike_predicted (update_signature sig c m i now).mem_roc MEM_SPIKE_THRESHOLD := h.2.1
  have h3 : flag_test (update_signature sig c m i now).flags FLAG_IO_SPIKE_PREDICTED =
      is_spike_predicted (update_signature sig c m i now).io_roc IO_SPIKE_THRESHOLD := h.2.2
  refine ⟨?_, ?_, ?_, by decide, by decide, by decide, by decide, by decide, by decide, by decide⟩
  · rw [h1]; simp [is_spike_predicted]
  · rw [h2]; simp [is_spike_predicted]
  · rw [h3]; simp [is_spike_predicted]

end SmartSched

/- ===============================================================
   Claims C4 and C1
   =============================================================== -/

namespace SmartSched

/-- C4: the Predictor update is exactly the fixed-point recurrence
ema_new = (30 * sample + 70 * ema_old) / 100 with C integer division, and
roc = ema_new - ema_old; concretely, from ema = 0 a raw sample of 8000
yields ema = 2400, a second identical sample yields ema = 4080 with
roc = 1680, which is below the CPU threshold 2000, so no spike flag is
set. -/
theorem claim_C4_predictor_recurrence :
    (∀ (sig : ProcSignature) (c m i : Int) (now : Nat),
      (update_signature sig c m i now).cpu_ema = (30 * c + 70 * sig.cpu_ema).tdiv 100 ∧
      (update_signature sig c m i now).mem_ema = (30 * m + 70 * sig.mem_ema).tdiv 100 ∧
      (update_signature sig c m i now).io_ema = (30 * i + 70 * sig.io_ema).tdiv 100 ∧
      (update_signature sig c m i now).cpu_roc =
        (update_signature sig c m i now).cpu_ema - sig.cpu_ema ∧
      (update_signature sig c m i now).mem_roc =
        (update_signature sig c m i now).mem_ema - sig.mem_ema ∧
      (update_signature sig c m i now).io_roc =
        (update_signature sig c m i now).io_ema - sig.io_ema) ∧
    (update_signature (blank_signature 1 "p" 0) 8000 0 0 0).cpu_ema = 2400 ∧
    (update_signature (update_signature (blank_signature 1 "p" 0) 8000 0 0 0)
      8000 0 0 1).cpu_ema = 4080 ∧
    (update_signature (update_signature (blank_signature 1 "p" 0) 8000 0 0 0)
      8000 0 0 1).cpu_roc = 1680 ∧
    flag_test
      (update_signature (update_signature (blank_signature 1 "p" 0) 8000 0 0 0)
        8000 0 0 1).flags FLAG_CPU_SPIKE_PREDICTED = false := by
  refine ⟨?_, by decide, by decide, by decide, by decide⟩
  intro sig c m i now
  refine ⟨?_, ?_, ?_, rfl, rfl, rfl⟩ <;>
    simp [update_signature, update_ema, calc_rate_of_change, ALPHA, ALPHA_COMPLEMENT]

end SmartSched

namespace Daemon

/-- C1 (amended): get_escalation_level maps 1-2 consecutive spike samples to
ADVISORY, 3-5 to SOFT, 6-10 to HARD and more than 10 to CRITICAL, and is
monotone in the counter; at 0 samples the function returns ADVISORY, not
NONE (the handlers always increment the counter before calling it, so 0
never reaches it); the NONE level seen at samples = 0 after restoration is
written directly by restore_priorities, bypassing the function. -/
theorem claim_C1_escalation_levels :
    (∀ p : TrackedProcess, 1 ≤ p.spike_samples → p.spike_samples ≤ 2 →
      get_escalation_level p = EscalationLevel.advisory) ∧
    (∀ p : TrackedProcess, 3 ≤ p.spike_samples → p.spike_samples ≤ 5 →
      get_escalation_level p = EscalationLevel.soft) ∧
    (∀ p : TrackedProcess, 6 ≤ p.spike_samples → p.spike_samples ≤ 10 →
      get_escalation_level p = EscalationLevel.hard) ∧
    (∀ p : TrackedProcess, 10 < p.spike_samples →
      get_escalation_level p = EscalationLevel.critical) ∧
    (∀ p q : TrackedProcess, p.spike_samples ≤ q.spike_samples →
      (get_escalation_level p).toNat ≤ (get_escalation_level q).toNat) ∧
    (∀ p : TrackedProcess, p.spike_samples = 0 →
      get_escalation_level p = EscalationLevel.advisory) ∧
    (∀ (now : Int) (p : TrackedProcess), p.adjusted = true →
      now - p.last_seen > 5 →
      (restore_step now true p).1.spike_samples = 0 ∧
      (restore_step now true p).1.escalation = EscalationLevel.none) := by
  refine ⟨?_, ?_, ?_, ?_, ?_, ?_, ?_⟩
  · intro p h1 h2
    unfold get_escalation_level
    split_ifs <;> first | rfl | omega
  · intro p h1 h2
    unfold get_escalation_level
    split_ifs <;> first | rfl | omega
  · intro p h1 h2
    unfold get_escalation_level
    split_ifs <;> first | rfl | omega
  · intro p h1
    unfold get_escalation_level
    split_ifs <;> first | rfl | omega
  · intro p q h
    unfold get_escalation_level
    split_ifs <;> simp only [EscalationLevel.toNat] <;> omega
  · intro p h
    unfold get_escalation_level
    split_ifs <;> first | rfl | omega
  · intro now p ha hn
    simp [restore_step, ha, hn]

/-- C1 counterexample: the claim says 0 consecutive spike samples map to
NONE; on the code, get_escalation_level of an entry with 0 samples is
ADVISORY, which is not NONE. -/
theorem claim_C1_counterexample :
    (blank_tracked 1 "c" 0).spike_samples = 0 ∧
    get_escalation_level (blank_tracked 1 "c" 0) = EscalationLevel.advisory ∧
    EscalationLevel.advisory ≠ EscalationLevel.none := by
  decide

/-- Witness for claim_C1_escalation_levels at the concrete sample counts the
specification lists. -/
theorem claim_C1_escalation_levels_witness :
    get_escalation_level { blank_tracked 0 "w" 0 with spike_samples := 2 } =
      EscalationLevel.advisory ∧
    get_escalation_level { blank_tracked 0 "w" 0 with spike_samples := 3 } =
      EscalationLevel.soft ∧
    get_escalation_level { blank_tracked 0 "w" 0 with spike_samples := 6 } =
      EscalationLevel.hard ∧
    get_escalation_level { blank_tracked 0 "w" 0 with spike_samples := 11 } =
      EscalationLevel.critical :=
  ⟨claim_C1_escalation_levels.1 _ (by decide) (by decide),
   claim_C1_escalation_levels.2.1 _ (by decide) (by decide),
   claim_C1_escalation_levels.2.2.1 _ (by decide) (by decide),
   claim_C1_escalation_levels.2.2.2.1 _ (by decide)⟩

end Daemon

/- ===============================================================
   Claim C9
   =============================================================== -/

namespace SmartSched

theorem le_tdiv_of_mul_le {a N : Int} (h : 100 * a ≤ N) : a ≤ N.tdiv 100 := by
  rcases le_or_lt 0 N with hN | hN
  · rw [Int.tdiv_eq_ediv hN (by norm_num)]
    have h2 : 100 * a / 100 ≤ N / 100 := Int.ediv_le_ediv (by norm_num) h
    rwa [Int.mul_ediv_cancel_left _ (by norm_num)] at h2
  · have h2 : -N ≤ 100 * (-a) := by linarith
    have h3 : (-N).tdiv 100 = (-N) / 100 := Int.tdiv_eq_ediv (by linarith) (by norm_num)
    have h4 : (-N) / 100 ≤ 100 * (-a) / 100 := Int.ediv_le_ediv (by norm_num) h2
    rw [Int.mul_ediv_cancel_left _ (by norm_num)] at h4
    have h5 : (-N).tdiv 100 = -(N.tdiv 100) := Int.neg_tdiv N 100
    omega

theorem tdiv_le_of_le_mul {N b : Int} (h : N ≤ 100 * b) : N.tdiv 100 ≤ b := by
  rcases le_or_lt 0 N with hN | hN
  · rw [Int.tdiv_eq_ediv hN (by norm_num)]
    have h2 : N / 100 ≤ 100 * b / 100 := Int.ediv_le_ediv (by norm_num) h
    rwa [Int.mul_ediv_cancel_left _ (by norm_num)] at h2
  · have h2 : 100 * (-b) ≤ -N := by linarith
    have h3 : (-N).tdiv 100 = (-N) / 100 := Int.tdiv_eq_ediv (by linarith) (by norm_num)
    have h4 : 100 * (-b) / 100 ≤ (-N) / 100 := Int.ediv_le_ediv (by norm_num) h2
    rw [Int.mul_ediv_cancel_left _ (by norm_num)] at h4
    have h5 : (-N).tdiv 100 = -(N.tdiv 100) := Int.neg_tdiv N 100
    omega

/-- Climbing from below: one EMA step from at most the sample stays between
the old value and the sample. -/
theorem update_ema_between_le {e s : Int} (h : e ≤ s) :
    e ≤ update_ema e s ∧ update_ema e s ≤ s := by
  simp only [update_ema, ALPHA_COMPLEMENT, ALPHA]
  norm_num
  constructor
  · exact le_tdiv_of_mul_le (by linarith)
  · exact tdiv_le_of_le_mul (by linarith)

/-- Descending from above: one EMA step from at least the sample stays
between the sample and the old value. -/
theorem update_ema_between_ge {e s : Int} (h : s ≤ e) :
    s ≤ update_ema e s ∧ update_ema e s ≤ e := by
  simp only [update_ema, ALPHA_COMPLEMENT, ALPHA]
  norm_num
  constructor
  · exact le_tdiv_of_mul_le (by linarith)
  · exact tdiv_le_of_le_mul (by linarith)

/-- A non-stationary EMA step strictly shrinks the distance to the
sample. -/
theorem update_ema_measure {e s : Int} (hne : update_ema e s ≠ e) :
    (s - update_ema e s).natAbs < (s - e).natAbs := by
  rcases le_total e s with h | h
  · obtain ⟨h1, h2⟩ := update_ema_between_le h
    omega
  · obtain ⟨h1, h2⟩ := update_ema_between_ge h
    omega

theorem ema_iter_shift (sample e : Int) (k : Nat) :
    ema_iter sample (update_ema e sample) k = ema_iter sample e (k + 1) := by
  induction k with
  | zero => rfl
  | succ k ih => simp [ema_iter, ih]

theorem ema_iter_fixed_exists (sample : Int) :
    ∀ (m : Nat) (e : Int), (sample - e).natAbs = m →
      ∃ N, ema_iter sample e (N + 1) = ema_iter sample e N := by
  intro m
  induction m using Nat.strong_induction_on with
  | _ m ih =>
    intro e hm
    by_cases hfix : update_ema e sample = e
    · exact ⟨0, hfix⟩
    · have hlt : (sample - update_ema e sample).natAbs < m := by
        rw [← hm]
        exact update_ema_measure hfix
      obtain ⟨N, hN⟩ := ih _ hlt (update_ema e sample) rfl
      rw [ema_iter_shift, ema_iter_shift] at hN
      exact ⟨N + 1, hN⟩

theorem ema_iter_constant_after (sample e0 : Int) (N : Nat)
    (h : ema_iter sample e0 (N + 1) = ema_iter sample e0 N) :
    ∀ k, N ≤ k → ema_iter sample e0 k = ema_iter sample e0 N := by
  intro k hk
  induction k, hk using Nat.le_induction with
  | base => rfl
  | succ k hk ihk =>
    show update_ema (ema_iter sample e0 k) sample = ema_iter sample e0 N
    rw [ihk]
    exact h

/-- C9: for every starting EMA value and identical repeated samples, the EMA
sequence is monotone toward the sample (non-decreasing from below,
non-increasing from above), never overshoots it, and becomes stationary
after finitely many steps, at which point the rate of change is 0. -/
theorem claim_C9_ema_convergence (sample e0 : Int) :
    (e0 ≤ sample → ∀ n, ema_iter sample e0 n ≤ ema_iter sample e0 (n + 1) ∧
      ema_iter sample e0 n ≤ sample) ∧
    (sample ≤ e0 → ∀ n, ema_iter sample e0 (n + 1) ≤ ema_iter sample e0 n ∧
      sample ≤ ema_iter sample e0 n) ∧
    (∃ N, ∀ k, N ≤ k →
      ema_iter sample e0 (k + 1) = ema_iter sample e0 k ∧
      calc_rate_of_change (ema_iter sample e0 (k + 1)) (ema_iter sample e0 k) = 0) := by
  refine ⟨?_, ?_, ?_⟩
  · intro h n
    have hb : ∀ n, ema_iter sample e0 n ≤ sample := by
      intro n
      induction n with
      | zero => exact h
      | succ n ihn => exact (update_ema_between_le ihn).2
    exact ⟨(update_ema_between_le (hb n)).1, hb n⟩
  · intro h n
    have hb : ∀ n, sample ≤ ema_iter sample e0 n := by
      intro n
      induction n with
      | zero => exact h
      | succ n ihn => exact (update_ema_between_ge ihn).1
    exact ⟨(update_ema_between_ge (hb n)).2, hb n⟩
  · obtain ⟨N, hN⟩ := ema_iter_fixed_exists sample (sample - e0).natAbs e0 rfl
    refine ⟨N, fun k hk => ?_⟩
    have h1 := ema_iter_constant_after sample e0 N hN k hk
    have h2 := ema_iter_constant_after sample e0 N hN (k + 1) (by omega)
    constructor
    · rw [h1, h2]
    · unfold calc_rate_of_change
      rw [h1, h2]
      ring

/-- Witness for claim_C9_ema_convergence on the 8000-sample example of the
specification. -/
theorem claim_C9_ema_convergence_witness :
    ema_iter 8000 0 0 ≤ ema_iter 8000 0 1 ∧ ema_iter 8000 0 0 ≤ 8000 :=
  (claim_C9_ema_convergence 8000 0).1 (by decide) 0

end SmartSched

/- ===============================================================
   Claim C8
   =============================================================== -/

namespace TopSpikes

/-- C8 (amended): top_n with the total_score metric returns the leading
entries of the list sorted by descending total_score, where total_score is
the sum of the absolute rates of change; every returned entry scores at
least as high as every entry left out; the -n argument is clamped to the
interval from 1 to 100 (not to the store capacity); on the example with
scores 10, 9000, 50, 200 the three highest come back in descending order.
Tie order is whatever qsort produces and is not guaranteed to be insertion
order. -/
theorem claim_C8_top_n :
    (∀ l : List Process, List.Sorted score_desc (sort_by_score l)) ∧
    (∀ l : List Process, List.Perm (sort_by_score l) l) ∧
    (∀ (l : List Process) (n : Nat) (a b : Process),
      a ∈ top_n_rows l n → b ∈ (sort_by_score l).drop n → b.score ≤ a.score) ∧
    (∀ n : Int, clamp_top_n n = max 1 (min n 100)) ∧
    (∀ r : StatRow, r ∈ example_rows →
      (compute_score r.cpu_roc r.mem_roc r.io_roc = |r.cpu_roc| + |r.mem_roc| + |r.io_roc|)) ∧
    (top_spikes_main example_rows 3).map (fun p => p.score) = [9000, 200, 50] ∧
    (top_spikes_main example_rows 3).map (fun p => p.pid) = [2, 4, 3] := by
  have hsorted : ∀ l : List Process, List.Sorted score_desc (sort_by_score l) :=
    fun l => List.sorted_insertionSort score_desc l
  refine ⟨hsorted, fun l => List.perm_insertionSort score_desc l, ?_, ?_, ?_, by decide, by decide⟩
  · intro l n a b ha hb
    have hp := hsorted l
    unfold List.Sorted at hp
    rw [← List.take_append_drop n (sort_by_score l)] at hp
    exact (List.pairwise_append.mp hp).2.2 a ha b hb
  · intro n
    unfold clamp_top_n
    split_ifs <;> omega
  · intro r _
    rfl

/-- C8 counterexample: the claim clamps n to the interval from 1 to the
store capacity (512 here); the code clamps to at most 100, so the in-range
request 150 is altered. -/
theorem claim_C8_counterexample :
    clamp_top_n 150 = 100 ∧ (150 : Int) ≤ (MAX_PROCS : Int) ∧
    clamp_top_n 150 ≠ 150 := by
  decide

/-- Witness for claim_C8_top_n: the cross inequality at the concrete
example, comparing the kept entry of pid 2 with the dropped entry of
pid 1. -/
theorem claim_C8_top_n_witness :
    (⟨1, 0, 0, 0, 10, 0, 0, 10⟩ : Process).score ≤
      (⟨2, 0, 0, 0, 9000, 0, 0, 9000⟩ : Process).score :=
  claim_C8_top_n.2.2.1 (read_stats example_rows) 3
    ⟨2, 0, 0, 0, 9000, 0, 0, 9000⟩ ⟨1, 0, 0, 0, 10, 0, 0, 10⟩
    (by decide) (by decide)

end TopSpikes

/- ===============================================================
   Claim C2
   =============================================================== -/

namespace SmartSched

theorem update_signature_pid (sig : ProcSignature) (c m i : Int) (now : Nat) :
    (update_signature sig c m i now).pid = sig.pid :=
  rfl

theorem set_getElem?_self {α : Type} :
    ∀ (l : List α) (i : Nat) (x : α), l[i]? = some x → l.set i x = l
  | [], i, x, h => by simp at h
  | a :: l, 0, x, h => by
    simp at h
    simp [h]
  | a :: l, i + 1, x, h => by
    simp at h
    simpa [List.set] using set_getElem?_self l i x h

theorem map_set_eq_of_pid_eq (l : List ProcSignature) (i : Nat)
    (a b : ProcSignature) (hb : l[i]? = some b) (hab : a.pid = b.pid) :
    (l.set i a).map (fun s => s.pid) = l.map (fun s => s.pid) := by
  rw [List.map_set]
  have hmb : (l.map (fun s => s.pid))[i]? = some b.pid := by
    rw [List.getElem?_map, hb]
    rfl
  rw [hab]
  exact set_getElem?_self _ i _ hmb

/-- One loop body of the sampling tick either leaves the stored pids exactly
as they were or appends the pid of the sampled task. -/
theorem sample_tick_step_pids (now : Nat) (st : ModuleState) (t : SampleTask) :
    store_pids (sample_tick_step now st t) = store_pids st ∨
    store_pids (sample_tick_step now st t) = store_pids st ++ [t.pid] := by
  unfold sample_tick_step get_or_create_signature
  cases hf : st.sigs.findIdx? (fun s => s.pid == t.pid) with
  | some i =>
    cases hgi : st.sigs[i]? with
    | none => left; simp [hgi]
    | some sig =>
      left
      simp only [hgi, store_pids]
      exact map_set_eq_of_pid_eq st.sigs i _ sig hgi (update_signature_pid sig _ _ _ _)
  | none =>
    by_cases hcap : st.total_tracked ≥ MAX_TRACKED_PROCS
    · left
      simp [hcap]
    · right
      simp only [hcap, if_neg, ite_false, if_false]
      have hgi : (st.sigs ++ [blank_signature t.pid t.comm now])[st.sigs.length]? =
          some (blank_signature t.pid t.comm now) :=
        List.getElem?_concat_length st.sigs _
      rw [hgi]
      simp only [store_pids]
      have := map_set_eq_of_pid_eq (st.sigs ++ [blank_signature t.pid t.comm now])
        st.sigs.length
        (update_signature (blank_signature t.pid t.comm now) t.cpu t.mem t.io_sample now)
        (blank_signature t.pid t.comm now) hgi
        (update_signature_pid _ _ _ _ _)
      rw [this]
      simp [blank_signature]

/-- C2 (amended): a signature is created on the first sample of a
previously-unseen pid when capacity allows (the loop body inserts the
zeroed entry and immediately applies the first update to it), and the
existing signature is updated in place on every tick the pid is present in
the snapshot; but a pid present in the store and absent from the snapshot
is NOT removed by the sampling tick: no removal is performed at all during
sampling (remove_signature is never called by the callback), so exited
processes keep their signatures.  Every pid present before a tick is still
present after it, and any new pid comes from the snapshot. -/
theorem claim_C2_store_membership :
    (∀ (st : ModuleState) (snapshot : List SampleTask) (now : Nat),
      (∀ p, p ∈ store_pids st → p ∈ store_pids (sample_timer_callback st snapshot now)) ∧
      (∀ p, p ∈ store_pids (sample_timer_callback st snapshot now) →
        p ∈ store_pids st ∨ p ∈ snapshot.map (fun t => t.pid))) ∧
    (∀ (st : ModuleState) (t : SampleTask) (now : Nat),
      t.pid ∉ store_pids st → st.total_tracked < MAX_TRACKED_PROCS →
      (sample_tick_step now st t).sigs[st.sigs.length]? =
        some (update_signature (blank_signature t.pid t.comm now)
          t.cpu t.mem t.io_sample now) ∧
      t.pid ∈ store_pids (sample_tick_step now st t)) ∧
    (∀ (st : ModuleState) (t : SampleTask) (now i : Nat) (sig : ProcSignature),
      st.sigs.findIdx? (fun s => s.pid == t.pid) = some i →
      st.sigs[i]? = some sig →
      (sample_tick_step now st t).sigs[i]? =
        some (update_signature sig t.cpu t.mem t.io_sample now)) := by
  refine ⟨?_, ?_, ?_⟩
  · intro st snapshot now
    induction snapshot generalizing st with
    | nil => exact ⟨fun p hp => hp, fun p hp => Or.inl hp⟩
    | cons t ts ih =>
      have hstep := sample_tick_step_pids now st t
      have hfold : sample_timer_callback st (t :: ts) now =
          sample_timer_callback (sample_tick_step now st t) ts now := rfl
      constructor
      · intro p hp
        rw [hfold]
        refine (ih (sample_tick_step now st t)).1 p ?_
        rcases hstep with h | h
        · rwa [h]
        · rw [h]
          exact List.mem_append.mpr (Or.inl hp)
      · intro p hp
        rw [hfold] at hp
        rcases (ih (sample_tick_step now st t)).2 p hp with h | h
        · rcases hstep with he | he
          · rw [he] at h
            exact Or.inl h
          · rw [he] at h
            rcases List.mem_append.mp h with h2 | h2
            · exact Or.inl h2
            · right
              simp at h2
              simp [h2]
        · right
          simp
          right
          simpa using h
  · intro st t now hab hcap
    have hfind : st.sigs.findIdx? (fun s => s.pid == t.pid) = Option.none := by
      rw [List.findIdx?_eq_none_iff]
      intro s hs
      exact beq_eq_false_iff_ne.mpr
        (fun he => hab (he ▸ List.mem_map_of_mem (fun s => s.pid) hs))
    have hcap2 : ¬ st.total_tracked ≥ MAX_TRACKED_PROCS := by omega
    have hstep : sample_tick_step now st t =
        { st with
          sigs := (st.sigs ++ [blank_signature t.pid t.comm now]).set st.sigs.length
            (update_signature (blank_signature t.pid t.comm now)
              t.cpu t.mem t.io_sample now),
          total_tracked := st.total_tracked + 1,
          total_predictions := st.total_predictions +
            predictions_in_update (blank_signature t.pid t.comm now)
              t.cpu t.mem t.io_sample now } := by
      unfold sample_tick_step get_or_create_signature
      rw [hfind]
      simp only [hcap2, ite_false, if_false, List.getElem?_concat_length]
    rw [hstep]
    have hget : ((st.sigs ++ [blank_signature t.pid t.comm now]).set st.sigs.length
        (update_signature (blank_signature t.pid t.comm now)
          t.cpu t.mem t.io_sample now))[st.sigs.length]? =
        some (update_signature (blank_signature t.pid t.comm now)
          t.cpu t.mem t.io_sample now) :=
      List.getElem?_set_self (by simp)
    refine ⟨hget, ?_⟩
    have hmem := List.mem_map_of_mem (fun s => s.pid) (List.getElem?_mem hget)
    exact hmem
  · intro st t now i sig hfind hsig
    have hlt : i < st.sigs.length := (List.getElem?_eq_some.mp hsig).1
    have hstep : sample_tick_step now st t =
        { st with
          sigs := st.sigs.set i (update_signature sig t.cpu t.mem t.io_sample now),
          total_predictions := st.total_predictions +
            predictions_in_update sig t.cpu t.mem t.io_sample now } := by
      unfold sample_tick_step get_or_create_signature
      rw [hfind]
      simp only [hsig]
    rw [hstep]
    exact List.getElem?_set_self hlt

/-- C2 counterexample: a store holding pid 1 is given an empty provider
snapshot (the process exited); the claim requires the signature to be
removed on this tick, but after the tick pid 1 is still in the store. -/
theorem claim_C2_counterexample :
    store_pids (sample_timer_callback one_pid_store [] 5) = [1] := by
  decide

/-- Witness for claim_C2_store_membership: pid 1 survives an empty-snapshot
tick; a first sample of pid 2 on a fresh store creates the zeroed entry and
applies the first update to it; a tick that finds pid 1 updates its
signature in place. -/
theorem claim_C2_store_membership_witness :
    1 ∈ store_pids (sample_timer_callback one_pid_store [] 5) ∧
    (sample_tick_step 0 init_module_state ⟨2, "t", 8000, 0, 0⟩).sigs[0]? =
      some (update_signature (blank_signature 2 "t" 0) 8000 0 0 0) ∧
    (sample_tick_step 5 one_pid_store ⟨1, "task", 100, 0, 0⟩).sigs[0]? =
      some (update_signature (blank_signature 1 "task" 0) 100 0 0 5) :=
  ⟨(claim_C2_store_membership.1 one_pid_store [] 5).1 1 (by decide),
   (claim_C2_store_membership.2.1 init_module_state ⟨2, "t", 8000, 0, 0⟩ 0
     (by decide) (by decide)).1,
   claim_C2_store_membership.2.2 one_pid_store ⟨1, "task", 100, 0, 0⟩ 5 0
     (blank_signature 1 "task" 0) (by decide) (by decide)⟩

end SmartSched

/- ===============================================================
   Claim C7
   =============================================================== -/

namespace SmartSched

/-- Feeding a duplicate-free pid list to the store from a fresh module keeps
the first MAX_TRACKED_PROCS pids, tracks min of the count and the capacity,
and fails once per pid beyond the capacity. -/
theorem insert_all_spec (pids : List Nat) (hnd : pids.Nodup) :
    store_pids (insert_all pids).1 = pids.take MAX_TRACKED_PROCS ∧
    (insert_all pids).1.total_tracked = min pids.length MAX_TRACKED_PROCS ∧
    (insert_all pids).2 = pids.length - min pids.length MAX_TRACKED_PROCS := by
  induction pids using List.reverseRecOn with
  | nil => refine ⟨rfl, by simp [insert_all, init_module_state], rfl⟩
  | append_singleton l x ih =>
    have hnd2 := List.nodup_append.mp hnd
    have hx : x ∉ l := by
      intro hmem
      exact (hnd2.2.2 hmem (by simp)).elim
    obtain ⟨ih1, ih2, ih3⟩ := ih hnd2.1
    have hfold : insert_all (l ++ [x]) =
        (match get_or_create_signature (insert_all l).1 x "task" 0 with
         | (some _, st) => (st, (insert_all l).2)
         | (Option.none, st) => (st, (insert_all l).2 + 1)) := by
      unfold insert_all
      rw [List.foldl_append]
      rfl
    have hfind : (insert_all l).1.sigs.findIdx? (fun s => s.pid == x) = Option.none := by
      rw [List.findIdx?_eq_none_iff]
      intro s hs
      have hmem : s.pid ∈ store_pids (insert_all l).1 := List.mem_map_of_mem _ hs
      rw [ih1] at hmem
      have hmem2 : s.pid ∈ l := List.take_subset _ _ hmem
      exact beq_eq_false_iff_ne.mpr (fun he => hx (he ▸ hmem2))
    rcases Nat.lt_or_ge l.length MAX_TRACKED_PROCS with hlt | hge
    · have hcap : ¬ (insert_all l).1.total_tracked ≥ MAX_TRACKED_PROCS := by omega
      have hgc : get_or_create_signature (insert_all l).1 x "task" 0 =
          (some (insert_all l).1.sigs.length,
           { (insert_all l).1 with
             sigs := (insert_all l).1.sigs ++ [blank_signature x "task" 0],
             total_tracked := (insert_all l).1.total_tracked + 1 }) := by
        unfold get_or_create_signature
        rw [hfind]
        simp [hcap]
      rw [hfold, hgc]
      refine ⟨?_, ?_, ?_⟩
      · show store_pids _ = _
        simp only [store_pids, List.map_append]
        have : store_pids (insert_all l).1 = l.take MAX_TRACKED_PROCS := ih1
        simp only [store_pids] at this
        rw [this, List.take_of_length_le (by omega : l.length ≤ MAX_TRACKED_PROCS),
          List.take_of_length_le (by simp; omega)]
        simp [blank_signature]
      · show (insert_all l).1.total_tracked + 1 = _
        simp [List.length_append]
        omega
      · show (insert_all l).2 = _
        rw [ih3]
        simp [List.length_append]
        omega
    · have hcap : (insert_all l).1.total_tracked ≥ MAX_TRACKED_PROCS := by omega
      have hgc : get_or_create_signature (insert_all l).1 x "task" 0 =
          (Option.none, (insert_all l).1) := by
        unfold get_or_create_signature
        rw [hfind]
        simp [hcap]
      rw [hfold, hgc]
      refine ⟨?_, ?_, ?_⟩
      · show store_pids (insert_all l).1 = _
        rw [ih1, List.take_append_of_le_length hge]
      · show (insert_all l).1.total_tracked = _
        rw [ih2]
        simp [List.length_append]
        omega
      · show (insert_all l).2 + 1 = _
        rw [ih3]
        simp [List.length_append]
        omega

/-- C7 (amended): get_or_create_signature returns the existing entry when
the pid is present; when absent and the store size is strictly below the
capacity it appends a fresh zeroed entry; when the store is full it fails,
evicts nothing and changes nothing - in particular no counter is
incremented on the failure path.  Feeding MAX_TRACKED_PROCS + 1 distinct
pids to a fresh store leaves exactly MAX_TRACKED_PROCS live signatures (the
first MAX_TRACKED_PROCS pids, nothing evicted) and exactly one capacity
failure. -/
theorem claim_C7_capacity (pids : List Nat) (hnd : pids.Nodup)
    (hlen : pids.length = MAX_TRACKED_PROCS + 1) :
    (insert_all pids).1.total_tracked = MAX_TRACKED_PROCS ∧
    (insert_all pids).2 = 1 ∧
    store_pids (insert_all pids).1 = pids.take MAX_TRACKED_PROCS := by
  obtain ⟨h1, h2, h3⟩ := insert_all_spec pids hnd
  refine ⟨?_, ?_, h1⟩
  · omega
  · omega

/-- Witness for claim_C7_capacity on the pids 0 through 4096. -/
theorem claim_C7_capacity_witness :
    (insert_all (List.range (MAX_TRACKED_PROCS + 1))).1.total_tracked = MAX_TRACKED_PROCS ∧
    (insert_all (List.range (MAX_TRACKED_PROCS + 1))).2 = 1 ∧
    store_pids (insert_all (List.range (MAX_TRACKED_PROCS + 1))).1 =
      (List.range (MAX_TRACKED_PROCS + 1)).take MAX_TRACKED_PROCS :=
  claim_C7_capacity _ (List.nodup_range _) (List.length_range _)

/-- C7 counterexample: the claim says a counter increments on the
CapacityExceeded path; on a full store the code returns NULL and leaves the
whole module state - both counters included - unchanged. -/
theorem claim_C7_counterexample :
    get_or_create_signature full_store 5000 "new" 0 = (Option.none, full_store) ∧
    (get_or_create_signature full_store 5000 "new" 0).2.total_predictions =
      full_store.total_predictions ∧
    (get_or_create_signature full_store 5000 "new" 0).2.total_tracked =
      full_store.total_tracked := by
  have hfind : full_store.sigs.findIdx? (fun s => s.pid == 5000) = Option.none := by
    rw [List.findIdx?_eq_none_iff]
    intro s hs
    simp only [full_store] at hs
    obtain ⟨i, hi, rfl⟩ := List.mem_map.mp hs
    have hilt : i < MAX_TRACKED_PROCS := List.mem_range.mp hi
    simp only [blank_signature, beq_eq_false_iff_ne]
    unfold MAX_TRACKED_PROCS at hilt
    omega
  have hgc : get_or_create_signature full_store 5000 "new" 0 = (Option.none, full_store) := by
    unfold get_or_create_signature
    rw [hfind]
    have hcap : full_store.total_tracked ≥ MAX_TRACKED_PROCS := by
      simp [full_store]
    simp [hcap]
  exact ⟨hgc, by rw [hgc], by rw [hgc]⟩

end SmartSched

/- ===============================================================
   Claim C10
   =============================================================== -/

namespace Daemon

theorem handle_cpu_spike_body_length (s : DaemonState) (i pid : Nat)
    (now : Int) (ok : Bool) :
    (handle_cpu_spike_body s i pid now ok).tracked.length = s.tracked.length := by
  unfold handle_cpu_spike_body
  cases h : s.tracked[i]? with
  | none => rfl
  | some p0 =>
    simp [apply_ite (fun st : DaemonState => st.tracked.length), List.length_set]

theorem handle_mem_spike_body_length (s : DaemonState) (i pid : Nat) (now : Int) :
    (handle_mem_spike_body s i pid now).tracked.length = s.tracked.length := by
  unfold handle_mem_spike_body
  cases h : s.tracked[i]? with
  | none => rfl
  | some p0 =>
    simp [apply_ite (fun st : DaemonState => st.tracked.length), List.length_set]

theorem handle_io_spike_body_length (s : DaemonState) (i pid : Nat)
    (now : Int) (ok : Bool) :
    (handle_io_spike_body s i pid now ok).tracked.length = s.tracked.length := by
  unfold handle_io_spike_body
  cases h : s.tracked[i]? with
  | none => rfl
  | some p0 =>
    simp [apply_ite (fun st : DaemonState => st.tracked.length), List.length_set]

theorem handle_cpu_spike_length (s : DaemonState) (pid : Nat) (comm : String)
    (now orig : Int) (ok : Bool) :
    s.tracked.length ≤ (handle_cpu_spike s pid comm now orig ok).tracked.length := by
  unfold handle_cpu_spike add_tracked
  cases hf : find_tracked s pid with
  | some i => rw [handle_cpu_spike_body_length]
  | none =>
    by_cases hcap : s.tracked.length ≥ MAX_TRACKED
    · simp [hcap]
    · simp only [hcap, ite_false, if_false]
      rw [handle_cpu_spike_body_length]
      simp [List.length_set]

theorem handle_mem_spike_length (s : DaemonState) (pid : Nat) (comm : String)
    (now : Int) :
    s.tracked.length ≤ (handle_mem_spike s pid comm now).tracked.length := by
  unfold handle_mem_spike add_tracked
  cases hf : find_tracked s pid with
  | some i => rw [handle_mem_spike_body_length]
  | none =>
    by_cases hcap : s.tracked.length ≥ MAX_TRACKED
    · simp [hcap]
    · simp only [hcap, ite_false, if_false]
      rw [handle_mem_spike_body_length]
      simp

theorem handle_io_spike_length (s : DaemonState) (pid : Nat) (comm : String)
    (now : Int) (ok : Bool) :
    s.tracked.length ≤ (handle_io_spike s pid comm now ok).tracked.length := by
  unfold handle_io_spike add_tracked
  cases hf : find_tracked s pid with
  | some i => rw [handle_io_spike_body_length]
  | none =>
    by_cases hcap : s.tracked.length ≥ MAX_TRACKED
    · simp [hcap]
    · simp only [hcap, ite_false, if_false]
      rw [handle_io_spike_body_length]
      simp

theorem restore_priorities_length (s : DaemonState) (now : Int) (ok : Nat → Bool) :
    (restore_priorities s now ok).tracked.length = s.tracked.length := by
  simp [restore_priorities, List.enum_length]

/-- C10: when the tracking table holds MAX_TRACKED entries and a spike is
reported for a pid that is not tracked, the per-category handler returns
with the state bit-for-bit unchanged: no TrackedProcess is created, no
action sink call is made, nothing is logged and no statistics counter
moves; and since no operation of the daemon ever removes a tracked entry,
the table stays full and the drop repeats on every later tick. -/
theorem claim_C10_full_table_drop (s : DaemonState) (pid : Nat) (comm : String)
    (now orig : Int) (ok : Bool)
    (hfull : MAX_TRACKED ≤ s.tracked.length)
    (hfind : find_tracked s pid = Option.none) :
    handle_cpu_spike s pid comm now orig ok = s ∧
    handle_mem_spike s pid comm now = s ∧
    handle_io_spike s pid comm now ok = s ∧
    (∀ (s2 : DaemonState) (pid2 : Nat) (comm2 : String) (now2 orig2 : Int) (ok2 : Bool),
      s2.tracked.length ≤ (handle_cpu_spike s2 pid2 comm2 now2 orig2 ok2).tracked.length) ∧
    (∀ (s2 : DaemonState) (pid2 : Nat) (comm2 : String) (now2 : Int),
      s2.tracked.length ≤ (handle_mem_spike s2 pid2 comm2 now2).tracked.length) ∧
    (∀ (s2 : DaemonState) (pid2 : Nat) (comm2 : String) (now2 : Int) (ok2 : Bool),
      s2.tracked.length ≤ (handle_io_spike s2 pid2 comm2 now2 ok2).tracked.length) ∧
    (∀ (s2 : DaemonState) (now2 : Int) (ok2 : Nat → Bool),
      (restore_priorities s2 now2 ok2).tracked.length = s2.tracked.length) := by
  have hcap : s.tracked.length ≥ MAX_TRACKED := hfull
  refine ⟨?_, ?_, ?_, handle_cpu_spike_length, handle_mem_spike_length,
    handle_io_spike_length, restore_priorities_length⟩
  · unfold handle_cpu_spike add_tracked
    rw [hfind]
    simp [hcap]
  · unfold handle_mem_spike add_tracked
    rw [hfind]
    simp [hcap]
  · unfold handle_io_spike add_tracked
    rw [hfind]
    simp [hcap]

/-- Witness for claim_C10_full_table_drop: the full table of pids 0 through
1023 silently drops a spike for pid 5000. -/
theorem claim_C10_full_table_drop_witness :
    handle_cpu_spike full_table 5000 "w" 3 0 true = full_table ∧
    handle_mem_spike full_table 5000 "w" 3 = full_table ∧
    handle_io_spike full_table 5000 "w" 3 true = full_table := by
  have hfull : MAX_TRACKED ≤ full_table.tracked.length := by
    simp [full_table]
  have hfind : find_tracked full_table 5000 = Option.none := by
    unfold find_tracked
    rw [List.findIdx?_eq_none_iff]
    intro p hp
    simp only [full_table] at hp
    obtain ⟨i, hi, rfl⟩ := List.mem_map.mp hp
    have hilt : i < MAX_TRACKED := List.mem_range.mp hi
    simp only [blank_tracked, beq_eq_false_iff_ne]
    unfold MAX_TRACKED at hilt
    omega
  have h := claim_C10_full_table_drop full_table 5000 "w" 3 0 true hfull hfind
  exact ⟨h.1, h.2.1, h.2.2.1⟩

end Daemon

/- ===============================================================
   findIdx? machinery for the daemon table
   =============================================================== -/

namespace Daemon

theorem findIdx?_zero_spec {α : Type} (f : α → Bool) :
    ∀ (l : List α) (i : Nat), l.findIdx? f = some i →
      ∃ a, l[i]? = some a ∧ f a = true ∧
        ∀ m b, m < i → l[m]? = some b → f b = false
  | [], i, h => by simp [List.findIdx?] at h
  | x :: xs, i, h => by
    rw [List.findIdx?_cons] at h
    by_cases hx : f x = true
    · simp [hx] at h
      subst h
      exact ⟨x, by simp, hx, fun m b hm => by omega⟩
    · simp [hx] at h
      obtain ⟨i2, h2, hi⟩ := h
      obtain ⟨a, ha, hfa, hpre⟩ := findIdx?_zero_spec f xs i2 h2
      subst hi
      refine ⟨a, by simpa using ha, hfa, ?_⟩
      intro m b hm hb
      cases m with
      | zero =>
        simp at hb
        rw [← hb]
        simpa using hx
      | succ m2 =>
        exact hpre m2 b (by omega) (by simpa using hb)

theorem findIdx?_zero_set_found {α : Type} (f : α → Bool) (a : α) (ha : f a = true) :
    ∀ (l : List α) (k : Nat), l.findIdx? f = some k →
      (l.set k a).findIdx? f = some k
  | [], k, h => by simp [List.findIdx?] at h
  | x :: xs, k, h => by
    rw [List.findIdx?_cons] at h
    by_cases hx : f x = true
    · simp [hx] at h
      subst h
      simp [List.set, List.findIdx?_cons, ha]
    · simp [hx] at h
      obtain ⟨k2, h2, hk⟩ := h
      subst hk
      have := findIdx?_zero_set_found f a ha xs k2 h2
      simp [List.set, List.findIdx?_cons, hx, this]

theorem find_tracked_found (s : DaemonState) (pid i : Nat)
    (h : find_tracked s pid = some i) :
    ∃ p, s.tracked[i]? = some p ∧ p.pid = pid := by
  unfold find_tracked at h
  obtain ⟨p, hp, hfp, _⟩ := findIdx?_zero_spec _ s.tracked i h
  exact ⟨p, hp, by simpa using hfp⟩

theorem find_tracked_set (s : DaemonState) (pid i : Nat) (a : TrackedProcess)
    (h : find_tracked s pid = some i) (hpa : a.pid = pid) :
    (s.tracked.set i a).findIdx? (fun p => p.pid == pid) = some i := by
  unfold find_tracked at h
  exact findIdx?_zero_set_found _ a (by simpa using hpa) s.tracked i h

theorem get_escalation_level_eq_advisory_iff (q : TrackedProcess) :
    get_escalation_level q = EscalationLevel.advisory ↔ q.spike_samples ≤ 2 := by
  unfold get_escalation_level
  split_ifs with h1 h2 h3 <;> simp_all

end Daemon

namespace Daemon

/-- Evaluation of the CPU handler body on the action path: the entry exists,
the level after the prologue is past ADVISORY, the cooldown has elapsed (or
no action was taken yet) and the setpriority call succeeds. -/
theorem handle_cpu_spike_body_action (s : DaemonState) (i pid : Nat)
    (now : Int) (p : TrackedProcess)
    (hp : s.tracked[i]? = some p)
    (hlev : ¬ get_escalation_level (spike_prologue p SPIKE_CPU_MASK now) =
      EscalationLevel.advisory)
    (hcool : ¬ ((spike_prologue p SPIKE_CPU_MASK now).adjusted = true ∧
      now - (spike_prologue p SPIKE_CPU_MASK now).adjusted_time < CPU_COOLDOWN_SECS)) :
    handle_cpu_spike_body s i pid now true =
      { s with
        tracked := s.tracked.set i
          { spike_prologue p SPIKE_CPU_MASK now with
            current_nice :=
              if level_ge (get_escalation_level (spike_prologue p SPIKE_CPU_MASK now))
                  EscalationLevel.critical then -15
              else if level_ge (get_escalation_level (spike_prologue p SPIKE_CPU_MASK now))
                  EscalationLevel.hard then -10
              else -5,
            adjusted := true,
            adjusted_time := now,
            escalation := get_escalation_level (spike_prologue p SPIKE_CPU_MASK now),
            action_count := (spike_prologue p SPIKE_CPU_MASK now).action_count + 1 },
        stats := { s.stats with
          cpu_boosts := s.stats.cpu_boosts + 1,
          escalations := s.stats.escalations +
            (if level_ge (get_escalation_level (spike_prologue p SPIKE_CPU_MASK now))
                EscalationLevel.hard then 1 else 0) },
        log := s.log ++ [⟨"CPU", "BOOST", pid⟩],
        sinkCalls := s.sinkCalls ++
          [SinkCall.setNice pid
            (if level_ge (get_escalation_level (spike_prologue p SPIKE_CPU_MASK now))
                EscalationLevel.critical then -15
             else if level_ge (get_escalation_level (spike_prologue p SPIKE_CPU_MASK now))
                EscalationLevel.hard then -10
             else -5)] } := by
  unfold handle_cpu_spike_body
  rw [hp]
  simp only [hlev, hcool, if_false, ite_false, if_true, ite_true, List.set_set]

/-- Evaluation of the CPU handler body on the cooldown-skip path: the entry
exists, the level is past ADVISORY, and the previous action is within the
cooldown window; only the prologue mutation survives and no sink call is
made. -/
theorem handle_cpu_spike_body_cooldown (s : DaemonState) (i pid : Nat)
    (now : Int) (ok : Bool) (p : TrackedProcess)
    (hp : s.tracked[i]? = some p)
    (hlev : ¬ get_escalation_level (spike_prologue p SPIKE_CPU_MASK now) =
      EscalationLevel.advisory)
    (hcool : (spike_prologue p SPIKE_CPU_MASK now).adjusted = true ∧
      now - (spike_prologue p SPIKE_CPU_MASK now).adjusted_time < CPU_COOLDOWN_SECS) :
    handle_cpu_spike_body s i pid now ok =
      { s with tracked := s.tracked.set i (spike_prologue p SPIKE_CPU_MASK now) } := by
  unfold handle_cpu_spike_body
  rw [hp]
  simp only [hlev, hcool, if_false, ite_false, if_true, ite_true, and_self]

end Daemon

namespace Daemon

/-- Evaluation of the I/O handler body on the action path. -/
theorem handle_io_spike_body_action (s : DaemonState) (i pid : Nat)
    (now : Int) (p : TrackedProcess)
    (hp : s.tracked[i]? = some p)
    (hlev : ¬ get_escalation_level (spike_prologue p SPIKE_IO_MASK now) =
      EscalationLevel.advisory)
    (hcool : ¬ ((spike_prologue p SPIKE_IO_MASK now).adjusted = true ∧
      now - (spike_prologue p SPIKE_IO_MASK now).adjusted_time < IO_COOLDOWN_SECS)) :
    handle_io_spike_body s i pid now true =
      { s with
        tracked := s.tracked.set i
          { spike_prologue p SPIKE_IO_MASK now with
            adjusted := true,
            adjusted_time := now,
            action_count := (spike_prologue p SPIKE_IO_MASK now).action_count + 1 },
        stats := { s.stats with io_boosts := s.stats.io_boosts + 1 },
        log := s.log ++ [⟨"I/O", "BOOST", pid⟩],
        sinkCalls := s.sinkCalls ++
          [SinkCall.setIoPriority pid
            (if level_ge (get_escalation_level (spike_prologue p SPIKE_IO_MASK now))
                EscalationLevel.hard then 1 else 2)
            (if level_ge (get_escalation_level (spike_prologue p SPIKE_IO_MASK now))
                EscalationLevel.hard then 4 else 0)] } := by
  unfold handle_io_spike_body
  rw [hp]
  simp only [hlev, hcool, if_false, ite_false, if_true, ite_true, List.set_set]

/-- Evaluation of the I/O handler body on the cooldown-skip path. -/
theorem handle_io_spike_body_cooldown (s : DaemonState) (i pid : Nat)
    (now : Int) (ok : Bool) (p : TrackedProcess)
    (hp : s.tracked[i]? = some p)
    (hlev : ¬ get_escalation_level (spike_prologue p SPIKE_IO_MASK now) =
      EscalationLevel.advisory)
    (hcool : (spike_prologue p SPIKE_IO_MASK now).adjusted = true ∧
      now - (spike_prologue p SPIKE_IO_MASK now).adjusted_time < IO_COOLDOWN_SECS) :
    handle_io_spike_body s i pid now ok =
      { s with tracked := s.tracked.set i (spike_prologue p SPIKE_IO_MASK now) } := by
  unfold handle_io_spike_body
  rw [hp]
  simp only [hlev, hcool, if_false, ite_false, if_true, ite_true, and_self]

end Daemon

namespace Daemon

/-- A CPU spike tick that is entitled to act (entry present, level past
ADVISORY after the increment, cooldown clear, sink succeeding) makes
exactly one sink call and leaves an adjusted entry stamped with the action
time. -/
theorem handle_cpu_spike_action_state (s : DaemonState) (pid : Nat)
    (comm : String) (t1 orig : Int) (i : Nat) (p : TrackedProcess)
    (hf : find_tracked s pid = some i) (hp : s.tracked[i]? = some p)
    (hsamp : 2 ≤ p.spike_samples)
    (hcool1 : ¬ (p.adjusted = true ∧ t1 - p.adjusted_time < CPU_COOLDOWN_SECS)) :
    ∃ q, (handle_cpu_spike s pid comm t1 orig true).tracked = s.tracked.set i q ∧
      (handle_cpu_spike s pid comm t1 orig true).sinkCalls.length =
        s.sinkCalls.length + 1 ∧
      q.pid = p.pid ∧ q.adjusted = true ∧ q.adjusted_time = t1 ∧
      q.spike_samples = p.spike_samples + 1 := by
  have hlev1 : ¬ get_escalation_level (spike_prologue p SPIKE_CPU_MASK t1) =
      EscalationLevel.advisory := by
    rw [get_escalation_level_eq_advisory_iff]
    simp [spike_prologue]
    omega
  have hcool1' : ¬ ((spike_prologue p SPIKE_CPU_MASK t1).adjusted = true ∧
      t1 - (spike_prologue p SPIKE_CPU_MASK t1).adjusted_time < CPU_COOLDOWN_SECS) :=
    hcool1
  have h1 : handle_cpu_spike s pid comm t1 orig true =
      handle_cpu_spike_body s i pid t1 true := by
    unfold handle_cpu_spike
    rw [hf]
  rw [h1, handle_cpu_spike_body_action s i pid t1 p hp hlev1 hcool1']
  exact ⟨_, rfl, by simp, rfl, rfl, rfl, rfl⟩

/-- A CPU spike tick finding an adjusted entry inside the cooldown window
makes no sink call. -/
theorem handle_cpu_spike_skip_by_entry (s2 : DaemonState) (pid i : Nat)
    (comm2 : String) (t2 orig2 : Int) (ok : Bool) (q : TrackedProcess)
    (hf2 : s2.tracked.findIdx? (fun r => r.pid == pid) = some i)
    (hq : s2.tracked[i]? = some q)
    (hsamp : 2 ≤ q.spike_samples)
    (hadj : q.adjusted = true)
    (htime : t2 - q.adjusted_time < CPU_COOLDOWN_SECS) :
    (handle_cpu_spike s2 pid comm2 t2 orig2 ok).sinkCalls = s2.sinkCalls := by
  have hlev : ¬ get_escalation_level (spike_prologue q SPIKE_CPU_MASK t2) =
      EscalationLevel.advisory := by
    rw [get_escalation_level_eq_advisory_iff]
    simp [spike_prologue]
    omega
  have hcool : (spike_prologue q SPIKE_CPU_MASK t2).adjusted = true ∧
      t2 - (spike_prologue q SPIKE_CPU_MASK t2).adjusted_time < CPU_COOLDOWN_SECS :=
    ⟨hadj, htime⟩
  have h2 : handle_cpu_spike s2 pid comm2 t2 orig2 ok =
      handle_cpu_spike_body s2 i pid t2 ok := by
    unfold handle_cpu_spike find_tracked
    rw [hf2]
  rw [h2, handle_cpu_spike_body_cooldown s2 i pid t2 ok q hq hlev hcool]

/-- handle_io_spike analogue of handle_cpu_spike_action_state. -/
theorem handle_io_spike_action_state (s : DaemonState) (pid : Nat)
    (comm : String) (t1 : Int) (i : Nat) (p : TrackedProcess)
    (hf : find_tracked s pid = some i) (hp : s.tracked[i]? = some p)
    (hsamp : 2 ≤ p.spike_samples)
    (hcool1 : ¬ (p.adjusted = true ∧ t1 - p.adjusted_time < IO_COOLDOWN_SECS)) :
    ∃ q, (handle_io_spike s pid comm t1 true).tracked = s.tracked.set i q ∧
      (handle_io_spike s pid comm t1 true).sinkCalls.length =
        s.sinkCalls.length + 1 ∧
      q.pid = p.pid ∧ q.adjusted = true ∧ q.adjusted_time = t1 ∧
      q.spike_samples = p.spike_samples + 1 := by
  have hlev1 : ¬ get_escalation_level (spike_prologue p SPIKE_IO_MASK t1) =
      EscalationLevel.advisory := by
    rw [get_escalation_level_eq_advisory_iff]
    simp [spike_prologue]
    omega
  have hcool1' : ¬ ((spike_prologue p SPIKE_IO_MASK t1).adjusted = true ∧
      t1 - (spike_prologue p SPIKE_IO_MASK t1).adjusted_time < IO_COOLDOWN_SECS) :=
    hcool1
  have h1 : handle_io_spike s pid comm t1 true =
      handle_io_spike_body s i pid t1 true := by
    unfold handle_io_spike
    rw [hf]
  rw [h1, handle_io_spike_body_action s i pid t1 p hp hlev1 hcool1']
  exact ⟨_, rfl, by simp, rfl, rfl, rfl, rfl⟩

/-- handle_io_spike analogue of handle_cpu_spike_skip_by_entry. -/
theorem handle_io_spike_skip_by_entry (s2 : DaemonState) (pid i : Nat)
    (comm2 : String) (t2 : Int) (ok : Bool) (q : TrackedProcess)
    (hf2 : s2.tracked.findIdx? (fun r => r.pid == pid) = some i)
    (hq : s2.tracked[i]? = some q)
    (hsamp : 2 ≤ q.spike_samples)
    (hadj : q.adjusted = true)
    (htime : t2 - q.adjusted_time < IO_COOLDOWN_SECS) :
    (handle_io_spike s2 pid comm2 t2 ok).sinkCalls = s2.sinkCalls := by
  have hlev : ¬ get_escalation_level (spike_prologue q SPIKE_IO_MASK t2) =
      EscalationLevel.advisory := by
    rw [get_escalation_level_eq_advisory_iff]
    simp [spike_prologue]
    omega
  have hcool : (spike_prologue q SPIKE_IO_MASK t2).adjusted = true ∧
      t2 - (spike_prologue q SPIKE_IO_MASK t2).adjusted_time < IO_COOLDOWN_SECS :=
    ⟨hadj, htime⟩
  have h2 : handle_io_spike s2 pid comm2 t2 ok =
      handle_io_spike_body s2 i pid t2 ok := by
    unfold handle_io_spike find_tracked
    rw [hf2]
  rw [h2, handle_io_spike_body_cooldown s2 i pid t2 ok q hq hlev hcool]

end Daemon

namespace Daemon

/-- C6 (amended): for the CPU and I/O categories, two consecutive
action-triggering ticks (level at least SOFT) whose times fall within the
category cooldown (10 seconds), with the first action succeeding, produce
exactly one action sink call: the first tick makes the call and stamps
last_action_at, and the second tick is skipped because now minus
last_action_at is below the cooldown.  The MEM handler performs no cooldown
check at all (its configured 15-second cooldown is never read) and at
CRITICAL issues its kill-preference advisory on every tick; see the
counterexample. -/
theorem claim_C6_cooldown_single_action (s : DaemonState) (pid : Nat)
    (comm comm2 : String) (t1 t2 orig orig2 : Int) (i : Nat) (p : TrackedProcess)
    (hf : find_tracked s pid = some i) (hp : s.tracked[i]? = some p)
    (hsamp : 2 ≤ p.spike_samples)
    (hcoolc : ¬ (p.adjusted = true ∧ t1 - p.adjusted_time < CPU_COOLDOWN_SECS))
    (hcooli : ¬ (p.adjusted = true ∧ t1 - p.adjusted_time < IO_COOLDOWN_SECS))
    (hgapc : t2 - t1 < CPU_COOLDOWN_SECS)
    (hgapi : t2 - t1 < IO_COOLDOWN_SECS) :
    ((handle_cpu_spike s pid comm t1 orig true).sinkCalls.length =
        s.sinkCalls.length + 1 ∧
      (handle_cpu_spike (handle_cpu_spike s pid comm t1 orig true) pid comm2 t2
        orig2 true).sinkCalls =
        (handle_cpu_spike s pid comm t1 orig true).sinkCalls) ∧
    ((handle_io_spike s pid comm t1 true).sinkCalls.length =
        s.sinkCalls.length + 1 ∧
      (handle_io_spike (handle_io_spike s pid comm t1 true) pid comm2 t2
        true).sinkCalls = (handle_io_spike s pid comm t1 true).sinkCalls) := by
  obtain ⟨p', hp', hpid'⟩ := find_tracked_found s pid i hf
  rw [hp] at hp'
  have hpid : p.pid = pid := (Option.some.inj hp') ▸ hpid'
  have hlt : i < s.tracked.length := by
    obtain ⟨hl, _⟩ := List.getElem?_eq_some.mp hp
    exact hl
  constructor
  · obtain ⟨q, htr, hlen, hqpid, hqadj, hqtime, hqsamp⟩ :=
      handle_cpu_spike_action_state s pid comm t1 orig i p hf hp hsamp hcoolc
    refine ⟨hlen, ?_⟩
    apply handle_cpu_spike_skip_by_entry _ pid i comm2 t2 orig2 true q
    · rw [htr]
      exact find_tracked_set s pid i q hf (hqpid.trans hpid)
    · rw [htr]
      exact List.getElem?_set_self (by simpa using hlt)
    · omega
    · exact hqadj
    · rw [hqtime]
      exact hgapc
  · obtain ⟨q, htr, hlen, hqpid, hqadj, hqtime, hqsamp⟩ :=
      handle_io_spike_action_state s pid comm t1 i p hf hp hsamp hcooli
    refine ⟨hlen, ?_⟩
    apply handle_io_spike_skip_by_entry _ pid i comm2 t2 true q
    · rw [htr]
      exact find_tracked_set s pid i q hf (hqpid.trans hpid)
    · rw [htr]
      exact List.getElem?_set_self (by simpa using hlt)
    · omega
    · exact hqadj
    · rw [hqtime]
      exact hgapi

/-- C6 counterexample: twelve consecutive MEM spike ticks for one pid, one
second apart.  The 11th and 12th ticks are both CRITICAL and only one
second apart - far inside the configured 15-second MEM cooldown - yet each
issues an oom advisory sink call: the trace ends with two calls, not one,
because the memory handler never checks the cooldown. -/
theorem claim_C6_counterexample :
    (mem_spike_iter 11).sinkCalls = [SinkCall.oomScoreAdjust 9] ∧
    (mem_spike_iter 12).sinkCalls =
      [SinkCall.oomScoreAdjust 9, SinkCall.oomScoreAdjust 9] ∧
    ((mem_spike_iter 12).tracked[0]?.map (fun p => p.spike_samples)) = some 12 ∧
    (11 : Int) - 10 < MEM_COOLDOWN_SECS := by
  refine ⟨by decide, by decide, by decide, by decide⟩

/-- Witness for claim_C6_cooldown_single_action on a one-entry table whose
pid 7 has two prior spike samples: the tick at second 10 acts, the tick at
second 11 is inside both 10-second cooldowns and is skipped. -/
theorem claim_C6_cooldown_single_action_witness :
    ((handle_cpu_spike
        ⟨[⟨7, "x", 0, 0, false, 0, 0, 1, 2, EscalationLevel.none, 0⟩],
          zero_stats, [], []⟩ 7 "x" 10 0 true).sinkCalls.length =
      (⟨[⟨7, "x", 0, 0, false, 0, 0, 1, 2, EscalationLevel.none, 0⟩],
          zero_stats, [], []⟩ : DaemonState).sinkCalls.length + 1) ∧
    ((handle_cpu_spike
        (handle_cpu_spike
          ⟨[⟨7, "x", 0, 0, false, 0, 0, 1, 2, EscalationLevel.none, 0⟩],
            zero_stats, [], []⟩ 7 "x" 10 0 true) 7 "y" 11 0 true).sinkCalls =
      (handle_cpu_spike
        ⟨[⟨7, "x", 0, 0, false, 0, 0, 1, 2, EscalationLevel.none, 0⟩],
          zero_stats, [], []⟩ 7 "x" 10 0 true).sinkCalls) :=
  (claim_C6_cooldown_single_action
    ⟨[⟨7, "x", 0, 0, false, 0, 0, 1, 2, EscalationLevel.none, 0⟩],
      zero_stats, [], []⟩ 7 "x" "y" 10 11 0 0 0
    ⟨7, "x", 0, 0, false, 0, 0, 1, 2, EscalationLevel.none, 0⟩
    (by decide) (by decide) (by decide) (by decide) (by decide)
    (by decide) (by decide)).1

end Daemon

/- ===============================================================
   Claim C5
   =============================================================== -/

namespace Daemon

theorem inv_entries_set (l : List TrackedProcess) (i : Nat) (a : TrackedProcess)
    (hl : ∀ p ∈ l, p.escalation ≠ EscalationLevel.none → p.adjusted = true)
    (ha : a.escalation ≠ EscalationLevel.none → a.adjusted = true) :
    ∀ p ∈ l.set i a, p.escalation ≠ EscalationLevel.none → p.adjusted = true := by
  intro q hq
  rcases List.mem_or_eq_of_mem_set hq with hql | rfl
  · exact hl q hql
  · exact ha

theorem inv_entries_append (l : List TrackedProcess) (a : TrackedProcess)
    (hl : ∀ p ∈ l, p.escalation ≠ EscalationLevel.none → p.adjusted = true)
    (ha : a.escalation ≠ EscalationLevel.none → a.adjusted = true) :
    ∀ p ∈ l ++ [a], p.escalation ≠ EscalationLevel.none → p.adjusted = true := by
  intro q hq
  rcases List.mem_append.mp hq with hql | hqa
  · exact hl q hql
  · have : q = a := by simpa using hqa
    rw [this]
    exact ha

theorem handle_cpu_spike_body_inv (s : DaemonState) (i pid : Nat) (now : Int)
    (ok : Bool) (h : InvEscAdjusted s) :
    InvEscAdjusted (handle_cpu_spike_body s i pid now ok) := by
  unfold handle_cpu_spike_body
  cases hp : s.tracked[i]? with
  | none => exact h
  | some p0 =>
    dsimp only []
    have hp0 := h p0 (List.getElem?_mem hp)
    split_ifs <;>
      first
        | exact inv_entries_set _ _ _ h hp0
        | exact inv_entries_set _ _ _ (inv_entries_set _ _ _ h hp0) (fun _ => rfl)

theorem handle_mem_spike_body_inv (s : DaemonState) (i pid : Nat) (now : Int)
    (h : InvEscAdjusted s) :
    InvEscAdjusted (handle_mem_spike_body s i pid now) := by
  unfold handle_mem_spike_body
  cases hp : s.tracked[i]? with
  | none => exact h
  | some p0 =>
    dsimp only []
    have hp0 := h p0 (List.getElem?_mem hp)
    split_ifs <;> exact inv_entries_set _ _ _ h hp0

theorem handle_io_spike_body_inv (s : DaemonState) (i pid : Nat) (now : Int)
    (ok : Bool) (h : InvEscAdjusted s) :
    InvEscAdjusted (handle_io_spike_body s i pid now ok) := by
  unfold handle_io_spike_body
  cases hp : s.tracked[i]? with
  | none => exact h
  | some p0 =>
    dsimp only []
    have hp0 := h p0 (List.getElem?_mem hp)
    split_ifs <;>
      first
        | exact inv_entries_set _ _ _ h hp0
        | exact inv_entries_set _ _ _ (inv_entries_set _ _ _ h hp0) (fun _ => rfl)

theorem handle_cpu_spike_inv (s : DaemonState) (pid : Nat) (comm : String)
    (now orig : Int) (ok : Bool) (h : InvEscAdjusted s) :
    InvEscAdjusted (handle_cpu_spike s pid comm now orig ok) := by
  unfold handle_cpu_spike
  cases hf : find_tracked s pid with
  | some i => exact handle_cpu_spike_body_inv _ _ _ _ _ h
  | none =>
    unfold add_tracked
    by_cases hcap : s.tracked.length ≥ MAX_TRACKED
    · simpa [hcap] using h
    · simp only [hcap, ite_false, if_false]
      apply handle_cpu_spike_body_inv
      apply inv_entries_set
      · exact inv_entries_append _ _ h (fun hne => (hne rfl).elim)
      · intro hne
        rw [List.getElem?_concat_length] at hne ⊢
        exact (hne rfl).elim

theorem handle_mem_spike_inv (s : DaemonState) (pid : Nat) (comm : String)
    (now : Int) (h : InvEscAdjusted s) :
    InvEscAdjusted (handle_mem_spike s pid comm now) := by
  unfold handle_mem_spike
  cases hf : find_tracked s pid with
  | some i => exact handle_mem_spike_body_inv _ _ _ _ h
  | none =>
    unfold add_tracked
    by_cases hcap : s.tracked.length ≥ MAX_TRACKED
    · simpa [hcap] using h
    · simp only [hcap, ite_false, if_false]
      apply handle_mem_spike_body_inv
      exact inv_entries_append _ _ h (fun hne => (hne rfl).elim)

theorem handle_io_spike_inv (s : DaemonState) (pid : Nat) (comm : String)
    (now : Int) (ok : Bool) (h : InvEscAdjusted s) :
    InvEscAdjusted (handle_io_spike s pid comm now ok) := by
  unfold handle_io_spike
  cases hf : find_tracked s pid with
  | some i => exact handle_io_spike_body_inv _ _ _ _ _ h
  | none =>
    unfold add_tracked
    by_cases hcap : s.tracked.length ≥ MAX_TRACKED
    · simpa [hcap] using h
    · simp only [hcap, ite_false, if_false]
      apply handle_io_spike_body_inv
      exact inv_entries_append _ _ h (fun hne => (hne rfl).elim)

theorem restore_priorities_inv (s : DaemonState) (now : Int) (ok : Nat → Bool)
    (h : InvEscAdjusted s) :
    InvEscAdjusted (restore_priorities s now ok) := by
  intro q hq
  simp only [restore_priorities, List.map_map] at hq
  obtain ⟨⟨j, a⟩, hja, rfl⟩ := List.mem_map.mp hq
  obtain ⟨hjl, haj⟩ := List.mem_enum hja
  have hal : a ∈ s.tracked := by
    rw [haj]
    exact List.getElem_mem hjl
  intro hesc
  by_cases hc : a.adjusted = true ∧ now - a.last_seen > 5
  · by_cases hok : ok j = true
    · simp [restore_step, hc, hok] at hesc
    · show ((restore_step now (ok j) a).1).adjusted = true
      rw [show (restore_step now (ok j) a).1 = a from by simp [restore_step, hc, hok]]
      exact hc.1
  · have hid : (restore_step now (ok j) a).1 = a := by simp [restore_step, hc]
    show ((restore_step now (ok j) a).1).adjusted = true
    rw [hid]
    have hesc2 : a.escalation ≠ EscalationLevel.none := by
      have hesc3 : ((restore_step now (ok j) a).1).escalation ≠ EscalationLevel.none := hesc
      rwa [hid] at hesc3
    exact h a hal hesc2

/-- The safety invariant holds in every reachable daemon state. -/
theorem reachable_inv {s : DaemonState} (hs : Reachable s) : InvEscAdjusted s := by
  induction hs with
  | init =>
    intro p hp
    simp [init_daemon_state] at hp
  | cpu s pid comm now orig ok _ ih => exact handle_cpu_spike_inv s pid comm now orig ok ih
  | mem s pid comm now _ ih => exact handle_mem_spike_inv s pid comm now ih
  | io s pid comm now ok _ ih => exact handle_io_spike_inv s pid comm now ok ih
  | restore s now ok _ ih => exact restore_priorities_inv s now ok ih

end Daemon

namespace Daemon

/-- C5: in every reachable daemon state, for every tracked entry whose
escalation level is not NONE, the restoration pass attempts the restore
(makes its setpriority sink call) exactly when now minus the last time the
pid was seen spiking exceeds 5 seconds, and not before; on sink success the
entry gets current_nice back to original_nice, spike_samples reset to 0 and
escalation set to NONE; and the fire condition is independent of
last_action_at (adjusted_time), so no cooldown applies to restoration. -/
theorem claim_C5_restoration (s : DaemonState) (hs : Reachable s) (now : Int)
    (ok : Nat → Bool) (i : Nat) (p : TrackedProcess)
    (hp : s.tracked[i]? = some p) (hesc : p.escalation ≠ EscalationLevel.none) :
    ((restore_step now (ok i) p).2.2.2 ≠ [] ↔ now - p.last_seen > 5) ∧
    (now - p.last_seen > 5 → ok i = true →
      (restore_priorities s now ok).tracked[i]? =
        some { p with adjusted := false,
                      current_nice := p.original_nice,
                      spike_samples := 0,
                      escalation := EscalationLevel.none }) ∧
    (∀ t : Int, (restore_step now (ok i) { p with adjusted_time := t }).2.2.2 =
      (restore_step now (ok i) p).2.2.2) := by
  have hadj : p.adjusted = true := reachable_inv hs p (List.getElem?_mem hp) hesc
  refine ⟨?_, ?_, ?_⟩
  · by_cases hc : now - p.last_seen > 5
    · cases hok : ok i <;> simp [restore_step, hadj, hc]
    · simp [restore_step, hadj, hc]
  · intro hfire hok
    have htr : (restore_priorities s now ok).tracked[i]? =
        (s.tracked[i]?).map (fun a => (restore_step now (ok i) a).1) := by
      simp [restore_priorities, List.map_map, List.getElem?_map, List.getElem?_enum]
      rfl
    rw [htr, hp]
    simp [restore_step, hadj, hfire, hok]
  · intro t
    by_cases hc : now - p.last_seen > 5 <;> cases hok : ok i <;>
      simp [restore_step, hadj, hc]

/-- The three-spike demo state is reachable from daemon startup. -/
theorem demo_state_cpu3_reachable : Reachable demo_state_cpu3 := by
  unfold demo_state_cpu3
  exact Reachable.cpu _ _ _ _ _ _
    (Reachable.cpu _ _ _ _ _ _
      (Reachable.cpu _ _ _ _ _ _ Reachable.init))

/-- Witness for claim_C5_restoration: in the three-spike demo state (pid 7
boosted at second 2, escalation SOFT), the pass at second 8 fires (6 > 5)
and restores the entry. -/
theorem claim_C5_restoration_witness :
    (restore_step 8 true entry_cpu3).2.2.2 ≠ [] ∧
    (restore_priorities demo_state_cpu3 8 (fun _ => true)).tracked[0]? =
      some { entry_cpu3 with adjusted := false,
                             current_nice := entry_cpu3.original_nice,
                             spike_samples := 0,
                             escalation := EscalationLevel.none } :=
  ⟨((claim_C5_restoration demo_state_cpu3 demo_state_cpu3_reachable 8
      (fun _ => true) 0 entry_cpu3 (by decide) (by decide)).1).mpr (by decide),
   (claim_C5_restoration demo_state_cpu3 demo_state_cpu3_reachable 8
      (fun _ => true) 0 entry_cpu3 (by decide) (by decide)).2.1 (by decide) rfl⟩

end Daemon
